import Mathlib

/-!
Verification of the dorgu configuration-resolution / manifest-assembly /
validation core (packages `internal/types`, `internal/config`,
`internal/generator`), shallowly embedded in Lean.

Go maps are modelled as association lists (`List (String × String)`), with
insert-overwrite semantics; map iteration order is never observable in the
embedded code paths (lookups, or merges where later writes win).
Go `int`/`int64` are modelled as `Int`.  Serialized YAML documents are
modelled by the structured manifest values they are marshalled from
(`sigs.k8s.io/yaml.Marshal` is a deterministic pure function of the value,
so equality of the structured values models byte equality of the output),
while documents that the Go code builds directly as strings
(persona markdown, persona YAML) are modelled as the same strings.
-/

namespace Dorgu

/-- Severity of a validation issue (`ValidationSeverity`, validate.go). -/
inductive Severity where
  | error
  | warning
  | info
deriving DecidableEq, Repr

/-- A single validation finding (`ValidationIssue`, validate.go). -/
structure ValidationIssue where
  severity : Severity
  category : String
  file : String
  message : String
  suggestion : String
deriving DecidableEq, Repr

/-- The full validation report (`ValidationResult`, validate.go). -/
structure ValidationResult where
  issues : List ValidationIssue
  passed : Bool
  summary : String
deriving DecidableEq, Repr

/-! ## Configuration model (`internal/config`) -/

/-- CPU and memory quantity strings (`ResourceValues`). -/
structure ResourceValues where
  cpu : String
  memory : String
deriving DecidableEq, Repr

/-- Resource requests and limits (`ResourceSpec`). -/
structure ResourceSpec where
  requests : ResourceValues
  limits : ResourceValues
deriving DecidableEq, Repr

/-- Resource defaults plus named profiles (`ResourceConfig`).
The Go `map[string]ResourceSpec` is modelled as an association list;
the only observation is key lookup. -/
structure ResourceConfig where
  defaults : ResourceSpec
  profiles : List (String × ResourceSpec)
deriving DecidableEq, Repr

/-- Organization info (`OrgConfig`). -/
structure OrgConfig where
  name : String
deriving DecidableEq, Repr

/-- Naming conventions (`NamingConfig`). -/
structure NamingConfig where
  pattern : String
  dnsSafe : Bool
deriving DecidableEq, Repr

/-- Label configuration (`LabelConfig`). -/
structure LabelConfig where
  required : List String
  custom : List (String × String)
deriving DecidableEq, Repr

/-- Annotation configuration (`AnnotationConfig`). -/
structure AnnotationConfig where
  custom : List (String × String)
deriving DecidableEq, Repr

/-- Pod-level security settings from org config (`config.PodSecurityContext`).
The `SeccompProfile` pointer is modelled by its `Type` string (none = nil). -/
structure PodSecurityCfg where
  runAsNonRoot : Bool
  seccompProfileType : Option String
deriving DecidableEq, Repr

/-- Container-level security settings from org config
(`config.ContainerSecurityContext`). -/
structure ContainerSecurityCfg where
  allowPrivilegeEscalation : Bool
  readOnlyRootFilesystem : Bool
  capabilitiesDrop : List String
  capabilitiesAdd : List String
deriving DecidableEq, Repr

/-- Security policies (`SecurityConfig`). -/
structure SecurityConfig where
  podSecurityContext : PodSecurityCfg
  containerSecurityContext : ContainerSecurityCfg
deriving DecidableEq, Repr

/-- TLS settings of the ingress config (`TLSConfig`). -/
structure TLSConfig where
  enabled : Bool
  clusterIssuer : String
deriving DecidableEq, Repr

/-- Ingress settings (`IngressConfig`); `className` is Go field `Class`. -/
structure IngressConfig where
  className : String
  domainSuffix : String
  tls : TLSConfig
deriving DecidableEq, Repr

/-- ArgoCD destination settings (`DestinationConfig`).
`destNamespace` is Go field `Namespace`. -/
structure DestinationConfig where
  server : String
  destNamespace : String
deriving DecidableEq, Repr

/-- ArgoCD automated-sync settings (`AutomatedConfig`). -/
structure AutomatedConfig where
  prune : Bool
  selfHeal : Bool
deriving DecidableEq, Repr

/-- ArgoCD sync policy settings (`SyncPolicyConfig`). -/
structure SyncPolicyConfig where
  automated : AutomatedConfig
deriving DecidableEq, Repr

/-- ArgoCD settings (`ArgoCDConfig`). -/
structure ArgoCDConfig where
  project : String
  destination : DestinationConfig
  syncPolicy : SyncPolicyConfig
deriving DecidableEq, Repr

/-- CI/CD settings (`CIConfig`). -/
structure CIConfig where
  provider : String
  registry : String
deriving DecidableEq, Repr

/-- LLM settings (`LLMConfig`). -/
structure LLMConfig where
  provider : String
  model : String
deriving DecidableEq, Repr

/-- The dorgu configuration (`config.Config`). -/
structure Config where
  version : String
  org : OrgConfig
  naming : NamingConfig
  resources : ResourceConfig
  labels : LabelConfig
  annotationsCfg : AnnotationConfig
  security : SecurityConfig
  ingress : IngressConfig
  argocd : ArgoCDConfig
  ci : CIConfig
  llm : LLMConfig
deriving DecidableEq, Repr

/-- Model of `GetResourcesForProfile`: the named profile's spec if present,
else the merged default resource spec.  Unknown profile is not an error. -/
def Config.getResourcesForProfile (c : Config) (profile : String) : ResourceSpec :=
  match c.resources.profiles.find? (fun p => p.1 == profile) with
  | some p => p.2
  | none => c.resources.defaults

/-- The all-zero configuration (Go zero value of `Config`). -/
def Config.empty : Config where
  version := ""
  org := { name := "" }
  naming := { pattern := "", dnsSafe := false }
  resources :=
    { defaults := { requests := { cpu := "", memory := "" },
                    limits := { cpu := "", memory := "" } },
      profiles := [] }
  labels := { required := [], custom := [] }
  annotationsCfg := { custom := [] }
  security :=
    { podSecurityContext := { runAsNonRoot := false, seccompProfileType := none },
      containerSecurityContext :=
        { allowPrivilegeEscalation := false, readOnlyRootFilesystem := false,
          capabilitiesDrop := [], capabilitiesAdd := [] } }
  ingress := { className := "", domainSuffix := "", tls := { enabled := false, clusterIssuer := "" } }
  argocd := { project := "", destination := { server := "", destNamespace := "" },
              syncPolicy := { automated := { prune := false, selfHeal := false } } }
  ci := { provider := "", registry := "" }
  llm := { provider := "", model := "" }

/-- Model of `config.Default()`: the built-in default configuration, i.e.
`applyDefaults` evaluated on the zero-value `Config` (every conditional
fill in `applyDefaults` fires on the zero config).  The Go map literal for
the default profiles is modelled as an association list in source order. -/
def Config.defaultCfg : Config where
  version := "1"
  org := { name := "" }
  naming := { pattern := "\x7bapp\x7d", dnsSafe := true }
  resources :=
    { defaults := { requests := { cpu := "100m", memory := "128Mi" },
                    limits := { cpu := "500m", memory := "512Mi" } },
      profiles :=
        [("api", { requests := { cpu := "100m", memory := "256Mi" },
                   limits := { cpu := "1000m", memory := "1Gi" } }),
         ("worker", { requests := { cpu := "500m", memory := "512Mi" },
                      limits := { cpu := "2000m", memory := "2Gi" } }),
         ("web", { requests := { cpu := "50m", memory := "128Mi" },
                   limits := { cpu := "500m", memory := "512Mi" } })] }
  labels := { required := [], custom := [] }
  annotationsCfg := { custom := [] }
  security :=
    { podSecurityContext := { runAsNonRoot := false, seccompProfileType := none },
      containerSecurityContext :=
        { allowPrivilegeEscalation := false, readOnlyRootFilesystem := false,
          capabilitiesDrop := [], capabilitiesAdd := [] } }
  ingress := { className := "nginx", domainSuffix := ".local",
               tls := { enabled := false, clusterIssuer := "" } }
  argocd := { project := "default",
              destination := { server := "https://kubernetes.default.svc", destNamespace := "" },
              syncPolicy := { automated := { prune := false, selfHeal := false } } }
  ci := { provider := "github-actions", registry := "" }
  llm := { provider := "openai", model := "gpt-4" }

/-! ## Analysis model (`internal/types`)

Fields used only by the excluded parsers (`Dockerfile`, `Compose`, `Code`)
are omitted; no generator or validator code path reads them.
`ScalingConfig.behavior`, `HealthContext.startupGracePeriod`,
`DependencyContext.healthCheck`, `OperationsContext.autoRestart` and the
`tier`/`deploymentPolicy` fields of `AppConfigContext` are read by the
generator code (persona YAML) but missing from the (stale) types snapshot
in the repository; they are included here as the zero-defaulted fields the
generator dereferences. -/

/-- An exposed port (`types.Port`); `port` is the port number. -/
structure Port where
  port : Int
  protocol : String
  purpose : String
deriving DecidableEq, Repr

/-- Health check configuration (`types.HealthCheck`). -/
structure HealthCheck where
  path : String
  port : Int
  initialDelay : Int
  period : Int
  timeout : Int
  successThreshold : Int
  failureThreshold : Int
deriving DecidableEq, Repr

/-- An environment variable from analysis (`types.EnvVar`). -/
structure AnalysisEnvVar where
  name : String
  value : String
  required : Bool
  description : String
  secret : Bool
deriving DecidableEq, Repr

/-- HPA configuration (`types.ScalingConfig`). -/
structure ScalingConfig where
  minReplicas : Int
  maxReplicas : Int
  targetCPU : Int
  targetMemory : Int
  behavior : String
deriving DecidableEq, Repr

/-- Resource overrides from app config (`types.ResourceOverrides`). -/
structure ResourceOverrides where
  requestsCPU : String
  requestsMemory : String
  limitsCPU : String
  limitsMemory : String
deriving DecidableEq, Repr

/-- An ingress path from app config (`types.IngressPathDef`). -/
structure IngressPathDef where
  path : String
  pathType : String
deriving DecidableEq, Repr

/-- Ingress configuration from app config (`types.IngressContext`). -/
structure IngressContext where
  enabled : Bool
  host : String
  paths : List IngressPathDef
  tlsEnabled : Bool
  tlsSecret : String
deriving DecidableEq, Repr

/-- Health configuration from app config (`types.HealthContext`). -/
structure HealthContext where
  livenessPath : String
  livenessPort : Int
  readinessPath : String
  readinessPort : Int
  initialDelay : Int
  period : Int
  startupGracePeriod : String
deriving DecidableEq, Repr

/-- A dependency from app config (`types.DependencyContext`). -/
structure DependencyContext where
  name : String
  depType : String
  required : Bool
  healthCheck : String
deriving DecidableEq, Repr

/-- Operational information from app config (`types.OperationsContext`). -/
structure OperationsContext where
  runbook : String
  alerts : List String
  maintenanceWindow : String
  onCall : String
  autoRestart : Bool
deriving DecidableEq, Repr

/-- Deployment policy from app config (`types.DeploymentPolicyContext`). -/
structure DeploymentPolicyContext where
  strategy : String
  maxSurge : String
  maxUnavailable : String
deriving DecidableEq, Repr

/-- Per-app configuration context (`types.AppConfigContext`):
explicit user intent from the `.dorgu.yaml` app config, taking precedence
over analysis-derived values where the generators consult it. -/
structure AppConfigContext where
  name : String
  description : String
  team : String
  owner : String
  repository : String
  appType : String
  instructions : String
  environment : String
  tier : String
  resources : Option ResourceOverrides
  scaling : Option ScalingConfig
  labels : List (String × String)
  annotations : List (String × String)
  ingress : Option IngressContext
  health : Option HealthContext
  dependencies : List DependencyContext
  operations : Option OperationsContext
  deploymentPolicy : Option DeploymentPolicyContext
deriving DecidableEq, Repr

/-- The complete analysis of an application (`types.AppAnalysis`).
`appType` is Go field `Type`. -/
structure AppAnalysis where
  name : String
  appType : String
  language : String
  framework : String
  description : String
  ports : List Port
  healthCheck : Option HealthCheck
  envVars : List AnalysisEnvVar
  dependencies : List String
  resourceProfile : String
  scaling : Option ScalingConfig
  appConfig : Option AppConfigContext
  team : String
  owner : String
  repository : String
  environment : String
deriving DecidableEq, Repr

/-! ## Quantity parsers (validate.go lines 232-263) -/

/-- Model of `strings.HasSuffix`, computed on the character list (all quantity
strings are ASCII, where this coincides with `String.endsWith`). -/
def strEndsWith (s suffix : String) : Bool :=
  suffix.data.isSuffixOf s.data

/-- Model of `strings.TrimSuffix` for a suffix of `n` characters already known to be
present, computed on the character list. -/
def strDropRight (s : String) (n : Nat) : String :=
  String.mk (s.data.take (s.data.length - n))

/-- Value of a list of decimal digit characters. -/
def digitsToNat (cs : List Char) : Nat :=
  cs.foldl (fun n c => 10 * n + (c.toNat - ('0').toNat)) 0

/-- Model of `fmt.Sscanf(s, "%d", &n)`: an optional sign followed by a
maximal run of digits; on a failed parse the target keeps its zero value. -/
def scanIntGo (s : String) : Int :=
  let core : List Char → Int := fun cs =>
    let ds := cs.takeWhile Char.isDigit
    if ds.isEmpty then 0 else Int.ofNat (digitsToNat ds)
  match s.data with
  | '-' :: rest => - core rest
  | '+' :: rest => core rest
  | cs => core cs

/-- Model of `fmt.Sscanf(s, "%f", &cores)` followed by `int64(cores * 1000)`
(validate.go lines 241-243): an optional sign, integer digits, an optional
fraction; the result times 1000, truncated toward zero.  The Go code goes
through `float64`; on the decimal strings the configuration layer produces
the two computations agree (exponent forms and floats whose product falls
on the wrong side of an integer are not produced by any config source). -/
def scanFloatMilliGo (s : String) : Int :=
  let core : List Char → Int := fun cs =>
    let intDigits := cs.takeWhile Char.isDigit
    let rest := cs.drop intDigits.length
    let fracDigits :=
      match rest with
      | '.' :: r => r.takeWhile Char.isDigit
      | _ => []
    if intDigits.isEmpty ∧ fracDigits.isEmpty then 0
    else
      Int.ofNat (digitsToNat (intDigits ++ fracDigits) * 1000 / 10 ^ fracDigits.length)
  match s.data with
  | '-' :: rest => - core rest
  | '+' :: rest => core rest
  | cs => core cs

/-- Model of `parseCPUMillis` (validate.go lines 232-244): suffix `m` is a literal
milli-value; no suffix is a (float-parsed) core count times 1000. -/
def parseCPUMillis (cpu : String) : Int :=
  if cpu = "" then 0
  else if strEndsWith cpu "m" then scanIntGo (strDropRight cpu 1)
  else scanFloatMilliGo cpu

/-- Model of `parseMemoryBytes` (validate.go lines 246-263): binary suffixes
Ki/Mi/Gi/Ti are powers of 1024; no suffix is literal bytes.  The Go code
iterates a four-entry map in unspecified order; the four two-character
suffixes are mutually exclusive, so a fixed check order is equivalent. -/
def parseMemoryBytes (mem : String) : Int :=
  if mem = "" then 0
  else if strEndsWith mem "Ki" then scanIntGo (strDropRight mem 2) * 1024
  else if strEndsWith mem "Mi" then scanIntGo (strDropRight mem 2) * (1024 * 1024)
  else if strEndsWith mem "Gi" then scanIntGo (strDropRight mem 2) * (1024 * 1024 * 1024)
  else if strEndsWith mem "Ti" then scanIntGo (strDropRight mem 2) * (1024 * 1024 * 1024 * 1024)
  else scanIntGo mem

/-! ## Manifest structures (`internal/generator`) -/

/-- Decidable equality for `Except` results (Go `(value, error)` pairs). -/
instance {ε α : Type} [DecidableEq ε] [DecidableEq α] : DecidableEq (Except ε α) :=
  fun a b =>
    match a, b with
    | Except.error e1, Except.error e2 => decidable_of_iff (e1 = e2) (by simp)
    | Except.error _, Except.ok _ => isFalse (by simp)
    | Except.ok _, Except.error _ => isFalse (by simp)
    | Except.ok a1, Except.ok a2 => decidable_of_iff (a1 = a2) (by simp)

/-- Insert-or-overwrite on an association list, modelling a Go map write:
`m[k] = v`.  An existing key keeps its position with the new value. -/
def mapInsert (m : List (String × String)) (k v : String) : List (String × String) :=
  if m.any (fun p => p.1 == k) then
    m.map (fun p => if p.1 == k then (k, v) else p)
  else m ++ [(k, v)]

/-- Fold a list of key/value pairs into a map with `mapInsert`. -/
def mapInsertAll (m : List (String × String)) (kvs : List (String × String)) :
    List (String × String) :=
  kvs.foldl (fun acc kv => mapInsert acc kv.1 kv.2) m

/-- Kubernetes object metadata (`generator.Metadata`).  `ns` is the Go
`Namespace` field; `annotations = none` models the nil map (omitted on
serialization, per `omitempty`). -/
structure Metadata where
  name : String
  ns : String
  labels : List (String × String)
  annotations : Option (List (String × String))
deriving DecidableEq, Repr

/-- An HTTP GET probe action (`HTTPGetAction`). -/
structure HTTPGetAction where
  path : String
  port : Int
  scheme : String
deriving DecidableEq, Repr

/-- A liveness or readiness probe (`Probe`). -/
structure Probe where
  httpGet : Option HTTPGetAction
  initialDelaySeconds : Int
  periodSeconds : Int
  timeoutSeconds : Int
  failureThreshold : Int
deriving DecidableEq, Repr

/-- Selects a key from a secret (`SecretKeySelector`). -/
structure SecretKeySelector where
  name : String
  key : String
deriving DecidableEq, Repr

/-- Selects a key from a configmap (`ConfigMapKeySelector`). -/
structure ConfigMapKeySelector where
  name : String
  key : String
deriving DecidableEq, Repr

/-- Source of an env var value (`EnvVarSource`). -/
structure EnvVarSource where
  secretKeyRef : Option SecretKeySelector
  configMapKeyRef : Option ConfigMapKeySelector
deriving DecidableEq, Repr

/-- A container environment variable (`generator.EnvVar`). -/
structure K8sEnvVar where
  name : String
  value : String
  valueFrom : Option EnvVarSource
deriving DecidableEq, Repr

/-- A container port (`ContainerPort`). -/
structure ContainerPort where
  name : String
  containerPort : Int
  protocol : String
deriving DecidableEq, Repr

/-- Resource requests and limits of a container (`ResourceRequirements`). -/
structure ResourceRequirements where
  requests : List (String × String)
  limits : List (String × String)
deriving DecidableEq, Repr

/-- Pod security context of the manifest (`generator.PodSecurityContext`).
The `SeccompProfile` pointer is modelled by its `Type` string. -/
structure PodSecurityContext where
  runAsNonRoot : Option Bool
  seccompProfileType : Option String
deriving DecidableEq, Repr

/-- Container security context (`generator.ContainerSecurityContext`). -/
structure ContainerSecurityContext where
  allowPrivilegeEscalation : Option Bool
  readOnlyRootFilesystem : Option Bool
  capabilitiesDrop : List String
  capabilitiesAdd : List String
deriving DecidableEq, Repr

/-- A container spec (`Container`). -/
structure Container where
  name : String
  image : String
  ports : List ContainerPort
  env : List K8sEnvVar
  resources : ResourceRequirements
  livenessProbe : Option Probe
  readinessProbe : Option Probe
  securityContext : Option ContainerSecurityContext
deriving DecidableEq, Repr

/-- A pod spec (`PodSpec`). -/
structure PodSpec where
  containers : List Container
  securityContext : Option PodSecurityContext
  serviceAccountName : String
deriving DecidableEq, Repr

/-- A pod template (`PodTemplateSpec`). -/
structure PodTemplateSpec where
  metadata : Metadata
  spec : PodSpec
deriving DecidableEq, Repr

/-- A label selector (`LabelSelector`). -/
structure LabelSelector where
  matchLabels : List (String × String)
deriving DecidableEq, Repr

/-- A Deployment spec (`DeploymentSpec`). -/
structure DeploymentSpec where
  replicas : Int
  selector : LabelSelector
  template : PodTemplateSpec
deriving DecidableEq, Repr

/-- A Kubernetes Deployment (`DeploymentManifest`). -/
structure DeploymentManifest where
  apiVersion : String
  kind : String
  metadata : Metadata
  spec : DeploymentSpec
deriving DecidableEq, Repr

/-- A service port (`ServicePort`). -/
structure ServicePort where
  name : String
  port : Int
  targetPort : Int
  protocol : String
deriving DecidableEq, Repr

/-- A Service spec (`ServiceSpec`).  `svcType` is Go field `Type`. -/
structure ServiceSpec where
  svcType : String
  selector : List (String × String)
  ports : List ServicePort
deriving DecidableEq, Repr

/-- A Kubernetes Service (`ServiceManifest`). -/
structure ServiceManifest where
  apiVersion : String
  kind : String
  metadata : Metadata
  spec : ServiceSpec
deriving DecidableEq, Repr

/-- The backend service port reference (`ServiceBackendPort`). -/
structure ServiceBackendPort where
  number : Int
deriving DecidableEq, Repr

/-- The backend service reference (`IngressServiceBackend`). -/
structure IngressServiceBackend where
  name : String
  port : ServiceBackendPort
deriving DecidableEq, Repr

/-- An ingress backend (`IngressBackend`). -/
structure IngressBackend where
  service : IngressServiceBackend
deriving DecidableEq, Repr

/-- An ingress path rule (`generator.IngressPath`). -/
structure K8sIngressPath where
  path : String
  pathType : String
  backend : IngressBackend
deriving DecidableEq, Repr

/-- HTTP rules of an ingress rule (`IngressRuleHTTP`). -/
structure IngressRuleHTTP where
  paths : List K8sIngressPath
deriving DecidableEq, Repr

/-- An ingress rule (`IngressRule`). -/
structure IngressRule where
  host : String
  http : IngressRuleHTTP
deriving DecidableEq, Repr

/-- TLS configuration of an ingress (`IngressTLS`). -/
structure IngressTLS where
  hosts : List String
  secretName : String
deriving DecidableEq, Repr

/-- An Ingress spec (`IngressSpec`).  The Go `IngressClassName *string`
always points at the config class in the source; modelled as `Option`. -/
structure IngressSpec where
  ingressClassName : Option String
  tls : List IngressTLS
  rules : List IngressRule
deriving DecidableEq, Repr

/-- A Kubernetes Ingress (`IngressManifest`). -/
structure IngressManifest where
  apiVersion : String
  kind : String
  metadata : Metadata
  spec : IngressSpec
deriving DecidableEq, Repr

/-- The target of an HPA (`ScaleTargetRef`). -/
structure ScaleTargetRef where
  apiVersion : String
  kind : String
  name : String
deriving DecidableEq, Repr

/-- The target value of a metric (`MetricTarget`).
`targetType` is Go field `Type`. -/
structure MetricTarget where
  targetType : String
  averageUtilization : Int
deriving DecidableEq, Repr

/-- A resource-based metric (`ResourceMetric`). -/
structure ResourceMetric where
  name : String
  target : MetricTarget
deriving DecidableEq, Repr

/-- A metric for scaling (`MetricSpec`).  `metricType` is Go field `Type`. -/
structure MetricSpec where
  metricType : String
  resource : Option ResourceMetric
deriving DecidableEq, Repr

/-- An HPA spec (`HPASpec`). -/
structure HPASpec where
  scaleTargetRef : ScaleTargetRef
  minReplicas : Int
  maxReplicas : Int
  metrics : List MetricSpec
deriving DecidableEq, Repr

/-- A Kubernetes HorizontalPodAutoscaler (`HPAManifest`). -/
structure HPAManifest where
  apiVersion : String
  kind : String
  metadata : Metadata
  spec : HPASpec
deriving DecidableEq, Repr

/-- The ArgoCD source configuration (`ArgoCDSource`). -/
structure ArgoCDSource where
  repoURL : String
  path : String
  targetRevision : String
deriving DecidableEq, Repr

/-- The ArgoCD destination configuration (`ArgoCDDest`). -/
structure ArgoCDDest where
  server : String
  destNamespace : String
deriving DecidableEq, Repr

/-- ArgoCD automated sync settings (`ArgoCDAutomated`). -/
structure ArgoCDAutomated where
  prune : Bool
  selfHeal : Bool
deriving DecidableEq, Repr

/-- ArgoCD sync policy (`ArgoCDSyncPolicy`). -/
structure ArgoCDSyncPolicy where
  automated : Option ArgoCDAutomated
  syncOptions : List String
deriving DecidableEq, Repr

/-- The ArgoCD Application spec (`ArgoCDAppSpec`). -/
structure ArgoCDAppSpec where
  project : String
  source : ArgoCDSource
  destination : ArgoCDDest
  syncPolicy : Option ArgoCDSyncPolicy
deriving DecidableEq, Repr

/-- An ArgoCD Application (`ArgoCDApplication`). -/
structure ArgoCDApplication where
  apiVersion : String
  kind : String
  metadata : Metadata
  spec : ArgoCDAppSpec
deriving DecidableEq, Repr

/-- The GitHub Actions workflow document (`GenerateGitHubActions`,
generator.go lines 329-420): a fixed template string instantiated with
exactly `registry`, `imageName` and `analysis.Name` (the three `Sprintf`
arguments).  The constant template text is not reproduced; equality of
this record models byte equality of the rendered document. -/
structure WorkflowDoc where
  registry : String
  imageName : String
  appName : String
deriving DecidableEq, Repr

/-- Content of one generated document: the structured manifest that the Go
code serializes with `toYAML`, or the literal string for documents the Go
code assembles as text. -/
inductive DocContent where
  | deployment : DeploymentManifest → DocContent
  | service : ServiceManifest → DocContent
  | ingressDoc : IngressManifest → DocContent
  | hpa : HPAManifest → DocContent
  | argocdApp : ArgoCDApplication → DocContent
  | workflow : WorkflowDoc → DocContent
  | text : String → DocContent
deriving DecidableEq, Repr

/-- A generated file (`generator.GeneratedFile`). -/
structure GeneratedFile where
  path : String
  content : DocContent
deriving DecidableEq, Repr

/-- Generation options (`generator.Options`).  `ns` is Go field
`Namespace`. -/
structure Options where
  ns : String
  skipArgoCD : Bool
  skipCI : Bool
  skipPersona : Bool
  config : Config
deriving DecidableEq, Repr

/-! ## Shared derivation helpers (part of `internal/generator`) -/

/-- Model of `buildLabelsWithAppConfig`: canonical name and managed-by labels, team
and environment labels when set, org custom labels, then app custom labels
(app wins on key collision). -/
def buildLabelsWithAppConfig (analysis : AppAnalysis) (cfg : Config) :
    List (String × String) :=
  let labels := [("app.kubernetes.io/name", analysis.name),
                 ("app.kubernetes.io/managed-by", "dorgu")]
  let labels := if analysis.team ≠ "" then
      mapInsert labels "app.kubernetes.io/team" analysis.team else labels
  let labels := if analysis.environment ≠ "" then
      mapInsert labels "app.kubernetes.io/environment" analysis.environment else labels
  let labels := mapInsertAll labels cfg.labels.custom
  match analysis.appConfig with
  | some ac => mapInsertAll labels ac.labels
  | none => labels

/-- Model of `buildAnnotationsWithAppConfig`: org custom annotations then app custom
annotations (app wins); `none` (the Go nil map) when nothing is present. -/
def buildAnnotationsWithAppConfig (analysis : AppAnalysis) (cfg : Config) :
    Option (List (String × String)) :=
  let annotations := mapInsertAll [] cfg.annotationsCfg.custom
  let annotations :=
    match analysis.appConfig with
    | some ac => mapInsertAll annotations ac.annotations
    | none => annotations
  if annotations.isEmpty then none else some annotations

/-- The app-config scaling override when the app config and its scaling are
both present (the conjunction `analysis.AppConfig != nil &&
analysis.AppConfig.Scaling != nil` used across the generators). -/
def appCfgScaling (analysis : AppAnalysis) : Option ScalingConfig :=
  analysis.appConfig.bind (fun ac => ac.scaling)

/-- The four independent app-config resource override sub-fields applied to
a starting resource spec.  The source repeats this block verbatim in
`GenerateDeployment` (lines 182-197), `validateResourceRequestsVsLimits`
(lines 105-119) and `writeResources`; it is defined once here. -/
def applyResourceOverrides (analysis : AppAnalysis) (resources : ResourceSpec) :
    ResourceSpec :=
  match analysis.appConfig with
  | none => resources
  | some ac =>
    match ac.resources with
    | none => resources
    | some r =>
      let resources := if r.requestsCPU ≠ "" then
          { resources with requests.cpu := r.requestsCPU } else resources
      let resources := if r.requestsMemory ≠ "" then
          { resources with requests.memory := r.requestsMemory } else resources
      let resources := if r.limitsCPU ≠ "" then
          { resources with limits.cpu := r.limitsCPU } else resources
      let resources := if r.limitsMemory ≠ "" then
          { resources with limits.memory := r.limitsMemory } else resources
      resources

/-! ## Post-generation validator (validate.go)

Each Go rule appends issues to the shared result; each is modelled as a
function returning the list of issues it appends, and `ValidateGenerated`
concatenates them in rule order. -/

/-- Rule 1 (`validateImagePlaceholder`, lines 83-101): warn when no CI
registry is configured; always additionally note the mutable image tag. -/
def validateImagePlaceholderIssues (analysis : AppAnalysis) (opts : Options) :
    List ValidationIssue :=
  let registry := opts.config.ci.registry
  (if registry = "" then
    [{ severity := Severity.warning
       category := "image"
       file := "deployment.yaml"
       message := "Container image is placeholder \x27" ++ analysis.name ++
         ":latest\x27 (no registry set)"
       suggestion := "Set CI registry via \x27dorgu config set defaults.registry <registry>\x27 or in .dorgu.yaml" }]
  else []) ++
  [{ severity := Severity.info
     category := "image"
     file := "deployment.yaml"
     message := "Image uses \x27:latest\x27 tag"
     suggestion := "Use specific image tags in production for reproducible deployments" }]

/-- The merged resource spec a rule-2 check (and the deployment and persona
generators) computes: profile lookup, then the four independent app-config
override sub-fields (validate.go lines 104-119). -/
def mergedResources (analysis : AppAnalysis) (cfg : Config) : ResourceSpec :=
  applyResourceOverrides analysis (cfg.getResourcesForProfile analysis.resourceProfile)

/-- Rule 2, bounds part (`validateResourceRequestsVsLimits`, lines
120-141): error when a positive parsed request exceeds a positive parsed
limit, independently for CPU and memory. -/
def resourceBoundsIssues (resources : ResourceSpec) : List ValidationIssue :=
  let reqCPU := parseCPUMillis resources.requests.cpu
  let limCPU := parseCPUMillis resources.limits.cpu
  let cpuIssues :=
    if reqCPU > 0 ∧ limCPU > 0 ∧ reqCPU > limCPU then
      [{ severity := Severity.error
         category := "resources"
         file := "deployment.yaml"
         message := "Resource requests > limits: CPU request (" ++
           resources.requests.cpu ++ ") > limit (" ++ resources.limits.cpu ++ ")"
         suggestion := "CPU request must be <= CPU limit" }]
    else []
  let reqMem := parseMemoryBytes resources.requests.memory
  let limMem := parseMemoryBytes resources.limits.memory
  let memIssues :=
    if reqMem > 0 ∧ limMem > 0 ∧ reqMem > limMem then
      [{ severity := Severity.error
         category := "resources"
         file := "deployment.yaml"
         message := "Resource requests > limits: memory request (" ++
           resources.requests.memory ++ ") > limit (" ++ resources.limits.memory ++ ")"
         suggestion := "Memory request must be <= memory limit" }]
    else []
  cpuIssues ++ memIssues

/-- Rule 2 (`validateResourceRequestsVsLimits`, lines 103-142). -/
def validateResourceRequestsVsLimitsIssues (analysis : AppAnalysis) (opts : Options) :
    List ValidationIssue :=
  resourceBoundsIssues (mergedResources analysis opts.config)

/-- Rule 3 (`validateServicePortMatch`, lines 144-161): with ports
declared, warn when the health check port is not among them.  The Go port
set (`map[int]bool`) is modelled by list membership. -/
def validateServicePortMatchIssues (analysis : AppAnalysis) : List ValidationIssue :=
  if analysis.ports.isEmpty then []
  else
    match analysis.healthCheck with
    | none => []
    | some hc =>
      if analysis.ports.any (fun p => p.port == hc.port) then []
      else
        [{ severity := Severity.warning
           category := "ports"
           file := "deployment.yaml"
           message := "Health check port " ++ toString hc.port ++
             " does not match any container port"
           suggestion := "Ensure health check port matches one of the exposed container ports" }]

/-- The scaling source rule 4 selects (validate.go lines 164-167): the
app-config scaling when present, else the analysis scaling. -/
def selectedScaling (analysis : AppAnalysis) : Option ScalingConfig :=
  match analysis.appConfig with
  | some ac =>
    match ac.scaling with
    | some s => some s
    | none => analysis.scaling
  | none => analysis.scaling

/-- Rule 4 (`validateHPAMinMax`, lines 163-180): error when the selected
scaling has `minReplicas > maxReplicas` (raw values). -/
def validateHPAMinMaxIssues (analysis : AppAnalysis) : List ValidationIssue :=
  match selectedScaling analysis with
  | none => []
  | some scaling =>
    if scaling.minReplicas > scaling.maxReplicas then
      [{ severity := Severity.error
         category := "scaling"
         file := "hpa.yaml"
         message := "HPA minReplicas (" ++ toString scaling.minReplicas ++
           ") > maxReplicas (" ++ toString scaling.maxReplicas ++ ")"
         suggestion := "Set minReplicas <= maxReplicas" }]
    else []

/-- The ingress host rule 5 resolves (validate.go lines 183-185), matching
`GenerateIngress` lines 89-92: app-config host if non-empty, else
`name ++ domain suffix`. -/
def resolvedIngressHost (analysis : AppAnalysis) (cfg : Config) : String :=
  let host := analysis.name ++ cfg.ingress.domainSuffix
  match analysis.appConfig with
  | some ac =>
    match ac.ingress with
    | some ing => if ing.host ≠ "" then ing.host else host
    | none => host
  | none => host

/-- Rule 5 (`validateIngressHost`, lines 182-196): warn when the resolved
host is empty. -/
def validateIngressHostIssues (analysis : AppAnalysis) (opts : Options) :
    List ValidationIssue :=
  if resolvedIngressHost analysis opts.config = "" then
    [{ severity := Severity.warning
       category := "ingress"
       file := "ingress.yaml"
       message := "Ingress host is empty"
       suggestion := "Set ingress.host in .dorgu.yaml or ensure naming.domain_suffix is set in org config" }]
  else []

/-- Rule 6 (`validateHealthProbes`, lines 198-209): warn when neither
app-config health nor the analysis health check is present. -/
def validateHealthProbesIssues (analysis : AppAnalysis) : List ValidationIssue :=
  let hasHealth :=
    (match analysis.appConfig with
     | some ac => ac.health.isSome
     | none => false) || analysis.healthCheck.isSome
  if hasHealth then []
  else
    [{ severity := Severity.warning
       category := "health"
       file := "deployment.yaml"
       message := "No health probes configured"
       suggestion := "Add health.liveness/readiness in .dorgu.yaml or implement a /health endpoint" }]

/-- Rule 7 (`validateMissingRequiredFields`, lines 211-230): error when the
name is empty; info when the repository is empty. -/
def validateMissingRequiredFieldsIssues (analysis : AppAnalysis) : List ValidationIssue :=
  (if analysis.name = "" then
    [{ severity := Severity.error
       category := "metadata"
       file := "deployment.yaml"
       message := "Missing required field: application name"
       suggestion := "Set app.name in .dorgu.yaml or use --name" }]
  else []) ++
  (if analysis.repository = "" then
    [{ severity := Severity.info
       category := "metadata"
       file := "argocd/application.yaml"
       message := "Repository URL not set"
       suggestion := "Set app.repository in .dorgu.yaml or ensure git remote origin is configured" }]
  else [])

/-- Model of `ValidateGenerated` (validate.go lines 36-81): run the seven rules in
order, derive `passed` (the Go loop clears it on the first error-severity
issue) and `summary` (severity counts joined, or the all-passed line for
zero issues).  The `files` argument is accepted, as in the source, and
read by no rule. -/
def ValidateGenerated (analysis : AppAnalysis) (files : List GeneratedFile)
    (opts : Options) : ValidationResult :=
  let issues :=
    validateImagePlaceholderIssues analysis opts ++
    validateResourceRequestsVsLimitsIssues analysis opts ++
    validateServicePortMatchIssues analysis ++
    validateHPAMinMaxIssues analysis ++
    validateIngressHostIssues analysis opts ++
    validateHealthProbesIssues analysis ++
    validateMissingRequiredFieldsIssues analysis
  let passed := !(issues.any (fun i => i.severity == Severity.error))
  let errors := issues.countP (fun i => i.severity == Severity.error)
  let warnings := issues.countP (fun i => i.severity == Severity.warning)
  let infos := issues.countP (fun i => i.severity == Severity.info)
  let summary :=
    if issues.isEmpty then "All validation checks passed"
    else
      let parts :=
        (if errors > 0 then [toString errors ++ " error(s)"] else []) ++
        (if warnings > 0 then [toString warnings ++ " warning(s)"] else []) ++
        (if infos > 0 then [toString infos ++ " info(s)"] else [])
      "Validation: " ++ String.intercalate ", " parts
  { issues := issues, passed := passed, summary := summary }

/-! ## Per-document generators -/

/-- The liveness and readiness probes of the workload document
(`GenerateDeployment` lines 199-261): app-config health paths when
present, else the analysis health check (which then supplies both probes);
no probes otherwise. -/
def resolveProbes (analysis : AppAnalysis) : Option Probe × Option Probe :=
  let fromAppCfg : Option Probe × Option Probe :=
    match analysis.appConfig with
    | some ac =>
      match ac.health with
      | some health =>
        let livenessProbe :=
          if health.livenessPath ≠ "" then
            let p : Probe :=
              { httpGet := some { path := health.livenessPath,
                                  port := health.livenessPort, scheme := "" }
                initialDelaySeconds := health.initialDelay
                periodSeconds := health.period
                timeoutSeconds := 5
                failureThreshold := 3 }
            let p := if p.initialDelaySeconds = 0 then
                { p with initialDelaySeconds := 10 } else p
            let p := if p.periodSeconds = 0 then { p with periodSeconds := 10 } else p
            some p
          else none
        let readinessProbe :=
          if health.readinessPath ≠ "" then
            let p : Probe :=
              { httpGet := some { path := health.readinessPath,
                                  port := health.readinessPort, scheme := "" }
                initialDelaySeconds := health.initialDelay
                periodSeconds := health.period
                timeoutSeconds := 5
                failureThreshold := 3 }
            let p := if p.initialDelaySeconds = 0 then
                { p with initialDelaySeconds := 5 } else p
            let p := if p.periodSeconds = 0 then { p with periodSeconds := 5 } else p
            some p
          else none
        (livenessProbe, readinessProbe)
      | none => (none, none)
    | none => (none, none)
  match fromAppCfg with
  | (none, readinessProbe) =>
    match analysis.healthCheck with
    | some hc =>
      let probe : Probe :=
        { httpGet := some { path := hc.path, port := hc.port, scheme := "" }
          initialDelaySeconds := 10
          periodSeconds := 10
          timeoutSeconds := 5
          failureThreshold := 3 }
      let probe := if hc.initialDelay > 0 then
          { probe with initialDelaySeconds := hc.initialDelay } else probe
      let probe := if hc.period > 0 then { probe with periodSeconds := hc.period } else probe
      (some probe, some probe)
    | none => (none, readinessProbe)
  | (some l, readinessProbe) => (some l, readinessProbe)

/-- The replica count of the workload document (`GenerateDeployment` lines
288-294): app-config `minReplicas` when positive, else the analysis
scaling `minReplicas` when positive, else 2. -/
def resolveReplicas (analysis : AppAnalysis) : Int :=
  let fromAnalysis : Int :=
    match analysis.scaling with
    | some s => if s.minReplicas > 0 then s.minReplicas else 2
    | none => 2
  match appCfgScaling analysis with
  | some s => if s.minReplicas > 0 then s.minReplicas else fromAnalysis
  | none => fromAnalysis

/-- Model of `GenerateDeployment` (part of the deployment generator source,
lines 146-346). -/
def GenerateDeployment (analysis : AppAnalysis) (ns : String)
    (resources : ResourceSpec) (cfg : Config) : Except String DeploymentManifest :=
  let labels := buildLabelsWithAppConfig analysis cfg
  let annotations := buildAnnotationsWithAppConfig analysis cfg
  let containerPorts := analysis.ports.enum.map (fun ip =>
    ({ name := "port-" ++ toString ip.1
       containerPort := ip.2.port
       protocol := "TCP" } : ContainerPort))
  let envVars := analysis.envVars.map (fun e =>
    if e.secret then
      ({ name := e.name
         value := ""
         valueFrom := some
           { secretKeyRef := some { name := analysis.name.toLower ++ "-secrets",
                                    key := e.name.toLower }
             configMapKeyRef := none } } : K8sEnvVar)
    else if e.value ≠ "" then
      ({ name := e.name, value := e.value, valueFrom := none } : K8sEnvVar)
    else ({ name := e.name, value := "", valueFrom := none } : K8sEnvVar))
  let finalResources := applyResourceOverrides analysis resources
  let (livenessProbe, readinessProbe) := resolveProbes analysis
  let podSecurityContext : PodSecurityContext :=
    { runAsNonRoot := some true, seccompProfileType := some "RuntimeDefault" }
  let containerSecurityContext : ContainerSecurityContext :=
    { allowPrivilegeEscalation := some false
      readOnlyRootFilesystem := some true
      capabilitiesDrop := ["ALL"]
      capabilitiesAdd := [] }
  let imageName :=
    if cfg.ci.registry = "" then analysis.name ++ ":latest"
    else cfg.ci.registry ++ "/" ++ analysis.name ++ ":latest"
  let replicas := resolveReplicas analysis
  Except.ok
    { apiVersion := "apps/v1"
      kind := "Deployment"
      metadata := { name := analysis.name, ns := ns,
                    labels := labels, annotations := annotations }
      spec :=
        { replicas := replicas
          selector := { matchLabels := [("app.kubernetes.io/name", analysis.name)] }
          template :=
            { metadata := { name := "", ns := "",
                            labels := labels, annotations := annotations }
              spec :=
                { securityContext := some podSecurityContext
                  serviceAccountName := ""
                  containers :=
                    [{ name := analysis.name
                       image := imageName
                       ports := containerPorts
                       env := envVars
                       resources :=
                         { requests := [("cpu", finalResources.requests.cpu),
                                        ("memory", finalResources.requests.memory)]
                           limits := [("cpu", finalResources.limits.cpu),
                                      ("memory", finalResources.limits.memory)] }
                       livenessProbe := livenessProbe
                       readinessProbe := readinessProbe
                       securityContext := some containerSecurityContext }] } } } }

/-- Model of `GenerateService` (service generator source, lines 34-67). -/
def GenerateService (analysis : AppAnalysis) (ns : String) (cfg : Config) :
    Except String ServiceManifest :=
  let labels := buildLabelsWithAppConfig analysis cfg
  let annotations := buildAnnotationsWithAppConfig analysis cfg
  let servicePorts := analysis.ports.enum.map (fun ip =>
    ({ name := "port-" ++ toString ip.1
       port := ip.2.port
       targetPort := ip.2.port
       protocol := "TCP" } : ServicePort))
  Except.ok
    { apiVersion := "v1"
      kind := "Service"
      metadata := { name := analysis.name, ns := ns,
                    labels := labels, annotations := annotations }
      spec :=
        { svcType := "ClusterIP"
          selector := [("app.kubernetes.io/name", analysis.name)]
          ports := servicePorts } }

/-- Model of `GenerateIngress` (ingress generator source, lines 64-180). -/
def GenerateIngress (analysis : AppAnalysis) (ns : String) (cfg : Config) :
    Except String IngressManifest :=
  let labels := buildLabelsWithAppConfig analysis cfg
  let annotations := (buildAnnotationsWithAppConfig analysis cfg).getD []
  let (tlsEnabled, tlsSecret) :=
    let tlsEnabled := cfg.ingress.tls.enabled
    let tlsSecret := analysis.name ++ "-tls"
    match analysis.appConfig with
    | some ac =>
      match ac.ingress with
      | some ing =>
        (if ing.tlsEnabled then true else tlsEnabled,
         if ing.tlsSecret ≠ "" then ing.tlsSecret else tlsSecret)
      | none => (tlsEnabled, tlsSecret)
    | none => (tlsEnabled, tlsSecret)
  let annotations :=
    if tlsEnabled ∧ cfg.ingress.tls.clusterIssuer ≠ "" then
      mapInsert annotations "cert-manager.io/cluster-issuer" cfg.ingress.tls.clusterIssuer
    else annotations
  let host := resolvedIngressHost analysis cfg
  let httpPort :=
    match analysis.ports.find? (fun p =>
        p.port == 80 || p.port == 8080 || p.port == 3000 ||
        p.port == 5000 || p.port == 8000) with
    | some p => p.port
    | none => 80
  let httpPort :=
    match analysis.ports with
    | p0 :: _ => if httpPort = 80 then p0.port else httpPort
    | [] => httpPort
  let backend : IngressBackend :=
    { service := { name := analysis.name, port := { number := httpPort } } }
  let ingressPaths :=
    match analysis.appConfig with
    | some ac =>
      match ac.ingress with
      | some ing =>
        if !ing.paths.isEmpty then
          ing.paths.map (fun p =>
            ({ path := p.path
               pathType := if p.pathType = "" then "Prefix" else p.pathType
               backend := backend } : K8sIngressPath))
        else [{ path := "/", pathType := "Prefix", backend := backend }]
      | none => [{ path := "/", pathType := "Prefix", backend := backend }]
    | none => [{ path := "/", pathType := "Prefix", backend := backend }]
  Except.ok
    { apiVersion := "networking.k8s.io/v1"
      kind := "Ingress"
      metadata := { name := analysis.name, ns := ns,
                    labels := labels, annotations := some annotations }
      spec :=
        { ingressClassName := some cfg.ingress.className
          tls := if tlsEnabled then [{ hosts := [host], secretName := tlsSecret }] else []
          rules := [{ host := host, http := { paths := ingressPaths } }] } }

/-- The min/max/targetCPU/targetMemory quadruple the autoscaling document
uses (`GenerateHPA` lines 53-86, inline in the source): defaults
(2, 10, 70, 0), each replaced by the corresponding field of the app-config
scaling when that is present — else of the analysis scaling — but only
when the field is positive. -/
def hpaResolvedScaling (analysis : AppAnalysis) : Int × Int × Int × Int :=
  match appCfgScaling analysis with
  | some scaling =>
    (if scaling.minReplicas > 0 then scaling.minReplicas else 2,
     if scaling.maxReplicas > 0 then scaling.maxReplicas else 10,
     if scaling.targetCPU > 0 then scaling.targetCPU else 70,
     if scaling.targetMemory > 0 then scaling.targetMemory else 0)
  | none =>
    match analysis.scaling with
    | some scaling =>
      (if scaling.minReplicas > 0 then scaling.minReplicas else 2,
       if scaling.maxReplicas > 0 then scaling.maxReplicas else 10,
       if scaling.targetCPU > 0 then scaling.targetCPU else 70,
       if scaling.targetMemory > 0 then scaling.targetMemory else 0)
    | none => (2, 10, 70, 0)

/-- Model of `GenerateHPA` (hpa generator source, lines 50-136). -/
def GenerateHPA (analysis : AppAnalysis) (ns : String) (cfg : Config) :
    Except String HPAManifest :=
  let labels := buildLabelsWithAppConfig analysis cfg
  let (minReplicas, maxReplicas, targetCPU, targetMemory) := hpaResolvedScaling analysis
  let metrics : List MetricSpec :=
    [{ metricType := "Resource"
       resource := some { name := "cpu",
                          target := { targetType := "Utilization",
                                      averageUtilization := targetCPU } } }] ++
    (if targetMemory > 0 then
      [{ metricType := "Resource"
         resource := some { name := "memory",
                            target := { targetType := "Utilization",
                                        averageUtilization := targetMemory } } }]
    else [])
  Except.ok
    { apiVersion := "autoscaling/v2"
      kind := "HorizontalPodAutoscaler"
      metadata := { name := analysis.name, ns := ns, labels := labels, annotations := none }
      spec :=
        { scaleTargetRef := { apiVersion := "apps/v1", kind := "Deployment",
                              name := analysis.name }
          minReplicas := minReplicas
          maxReplicas := maxReplicas
          metrics := metrics } }

/-- The repository URL of the GitOps application document (`GenerateArgoCD`
lines 53-59): `analysis.Repository` when non-empty, else the app-config
repository when non-empty, else a placeholder URL from the app name. -/
def argoRepoURL (analysis : AppAnalysis) : String :=
  let placeholder := "https://github.com/YOUR_ORG/" ++ analysis.name ++ ".git"
  if analysis.repository ≠ "" then analysis.repository
  else
    match analysis.appConfig with
    | some ac => if ac.repository ≠ "" then ac.repository else placeholder
    | none => placeholder

/-- Model of `GenerateArgoCD` (argocd generator source, lines 50-93). -/
def GenerateArgoCD (analysis : AppAnalysis) (ns : String) (cfg : Config) :
    Except String ArgoCDApplication :=
  let labels := buildLabelsWithAppConfig analysis cfg
  Except.ok
    { apiVersion := "argoproj.io/v1alpha1"
      kind := "Application"
      metadata := { name := analysis.name, ns := "argocd",
                    labels := labels, annotations := none }
      spec :=
        { project := cfg.argocd.project
          source := { repoURL := argoRepoURL analysis, path := "k8s",
                      targetRevision := "HEAD" }
          destination := { server := cfg.argocd.destination.server, destNamespace := ns }
          syncPolicy := some
            { automated := some { prune := cfg.argocd.syncPolicy.automated.prune,
                                  selfHeal := cfg.argocd.syncPolicy.automated.selfHeal }
              syncOptions := ["CreateNamespace=true"] } } }

/-- Model of `GenerateGitHubActions` (generator.go lines 329-420): registry defaults
to the placeholder expression when unset; the template records the
registry, image name and app name. -/
def GenerateGitHubActions (analysis : AppAnalysis) (cfg : Config) :
    Except String WorkflowDoc :=
  let registry :=
    if cfg.ci.registry = "" then "ghcr.io/$\x7b\x7b github.repository_owner \x7d\x7d"
    else cfg.ci.registry
  let imageName := registry ++ "/" ++ analysis.name
  Except.ok { registry := registry, imageName := imageName, appName := analysis.name }

/-- Model of `hasHTTPPort` (generator.go lines 132-140): any well-known HTTP port or
HTTP purpose tag, falling back to "any port at all". -/
def hasHTTPPort (ports : List Port) : Bool :=
  ports.any (fun p =>
    p.port == 80 || p.port == 443 || p.port == 8080 || p.port == 3000 ||
    p.port == 5000 || p.port == 8000 || p.purpose == "HTTP" || p.purpose == "HTTP API")
  || !ports.isEmpty

/-! ## Free-text persona document (generator.go lines 153-318) -/

/-- Model of `formatPorts` (generator.go lines 266-275). -/
def formatPorts (ports : List Port) : String :=
  if ports.isEmpty then "No ports exposed."
  else ports.foldl (fun result p =>
    result ++ "- Port " ++ toString p.port ++ " (" ++ p.protocol ++ "): " ++
      p.purpose ++ "\n") ""

/-- Model of `formatDependencies` (generator.go lines 277-286). -/
def formatDependencies (deps : List String) : String :=
  if deps.isEmpty then "No external dependencies detected."
  else deps.foldl (fun result d => result ++ "- " ++ d ++ "\n") ""

/-- Model of `formatScalingDetails` (generator.go lines 295-311); the scaling source
selection (lines 296-299) is the same as the validator's
`selectedScaling`. -/
def formatScalingDetails (analysis : AppAnalysis) : String :=
  match selectedScaling analysis with
  | none => "No auto-scaling configured"
  | some scaling =>
    let result := "Min " ++ toString scaling.minReplicas ++ " replicas, Max " ++
      toString scaling.maxReplicas ++ " replicas"
    let result := if scaling.targetCPU > 0 then
        result ++ ", Target CPU " ++ toString scaling.targetCPU ++ "%" else result
    let result := if scaling.targetMemory > 0 then
        result ++ ", Target Memory " ++ toString scaling.targetMemory ++ "%" else result
    result

/-- Model of `formatHealthCheck` (generator.go lines 313-318). -/
def formatHealthCheck (hc : Option HealthCheck) : String :=
  match hc with
  | none => "No health check configured."
  | some hc => "- **Health endpoint:** " ++ hc.path ++ "\n"

/-- Model of `generateBasicPersona` (generator.go lines 153-264): the deterministic
fallback persona document built without the LLM. -/
def generateBasicPersona (analysis : AppAnalysis) : String :=
  let description :=
    let d := analysis.description
    let d := match analysis.appConfig with
      | some ac => if ac.description ≠ "" then ac.description else d
      | none => d
    if d = "" then "A containerized " ++ analysis.appType ++ " application" else d
  let team := if analysis.team ≠ "" then analysis.team else "[PLACEHOLDER]"
  let contact := if analysis.owner ≠ "" then analysis.owner else "[PLACEHOLDER]"
  let repository := if analysis.repository ≠ "" then analysis.repository else "[PLACEHOLDER]"
  let defaultNotes := "*Add operational notes here after deploying the application.*"
  let operationsNotes :=
    match analysis.appConfig with
    | some ac =>
      match ac.operations with
      | some ops =>
        let notes := ""
        let notes := if ops.runbook ≠ "" then
            notes ++ "- **Runbook:** " ++ ops.runbook ++ "\n" else notes
        let notes := if ops.onCall ≠ "" then
            notes ++ "- **On-Call:** " ++ ops.onCall ++ "\n" else notes
        let notes := if ops.maintenanceWindow ≠ "" then
            notes ++ "- **Maintenance Window:** " ++ ops.maintenanceWindow ++ "\n" else notes
        let notes := if !ops.alerts.isEmpty then
            notes ++ "\n### Configured Alerts\n" ++
              ops.alerts.foldl (fun acc alert => acc ++ "- " ++ alert ++ "\n") ""
          else notes
        if notes = "" then defaultNotes else notes
      | none => defaultNotes
    | none => defaultNotes
  let depsSection :=
    match analysis.appConfig with
    | some ac =>
      if !ac.dependencies.isEmpty then
        ac.dependencies.foldl (fun acc dep =>
          acc ++ "- **" ++ dep.name ++ "** (" ++ dep.depType ++ ")" ++
            (if dep.required then " (required)" else "") ++ "\n") ""
      else formatDependencies analysis.dependencies
    | none => formatDependencies analysis.dependencies
  let contextSection :=
    match analysis.appConfig with
    | some ac =>
      if ac.instructions ≠ "" then "\n\n## Application Context\n\n" ++ ac.instructions
      else ""
    | none => ""
  "# " ++ analysis.name ++ "\n\n## Overview\n\n" ++ description ++ contextSection ++
  "\n\n## Technical Stack\n\n- **Language:** " ++ analysis.language ++
  "\n- **Framework:** " ++ analysis.framework ++
  "\n- **Type:** " ++ analysis.appType ++
  "\n\n## API/Interfaces\n\n" ++ formatPorts analysis.ports ++
  "\n\n## External Dependencies\n\n" ++ depsSection ++
  "\n\n## Resource Profile\n\n- **Profile:** " ++ analysis.resourceProfile ++
  "\n- **Scaling:** " ++ formatScalingDetails analysis ++
  "\n\n## Health & Monitoring\n\n" ++ formatHealthCheck analysis.healthCheck ++
  "\n\n## Ownership\n\n- **Team:** " ++ team ++
  "\n- **Contact:** " ++ contact ++
  "\n- **Repository:** " ++ repository ++
  "\n\n## Operational Notes\n\n" ++ operationsNotes ++ "\n"

/-! ## Structured persona document (`GeneratePersonaYAML` and its
`write*` helpers, in validate.go's companion persona source) -/

/-- The liveness path, readiness path, health port and startup grace
period the persona health block resolves (`writeHealth` lines 442-467):
app-config health first, the analysis health check as a fallback for the
liveness path and port, and the readiness path defaulting to the liveness
path when unset. -/
def resolvePersonaHealth (analysis : AppAnalysis) : String × String × Int × String :=
  let (livenessPath, readinessPath, healthPort, grace) :=
    match analysis.appConfig with
    | some ac =>
      match ac.health with
      | some h =>
        (h.livenessPath, h.readinessPath,
         if h.livenessPort > 0 then h.livenessPort
         else if h.readinessPort > 0 then h.readinessPort else 0,
         h.startupGracePeriod)
      | none => ("", "", 0, "")
    | none => ("", "", 0, "")
  let (livenessPath, healthPort) :=
    if livenessPath = "" then
      match analysis.healthCheck with
      | some hc => (hc.path, hc.port)
      | none => (livenessPath, healthPort)
    else (livenessPath, healthPort)
  let readinessPath := if readinessPath = "" then livenessPath else readinessPath
  (livenessPath, readinessPath, healthPort, grace)

/-- Model of `writeResources`: the resources block of the persona document.  The
override block (lines 385-399) is the shared `applyResourceOverrides`. -/
def writeResources (analysis : AppAnalysis) (cfg : Config) : String :=
  let resources := applyResourceOverrides analysis
    (cfg.getResourcesForProfile analysis.resourceProfile)
  let profile := if analysis.resourceProfile = "" then "standard" else analysis.resourceProfile
  "  resources:\n    requests:\n      cpu: \"" ++ resources.requests.cpu ++
  "\"\n      memory: \"" ++ resources.requests.memory ++
  "\"\n    limits:\n      cpu: \"" ++ resources.limits.cpu ++
  "\"\n      memory: \"" ++ resources.limits.memory ++
  "\"\n    profile: " ++ profile ++ "\n"

/-- Model of `writeScaling`: the scaling block of the persona document; the source
selection (lines 417-420) is the same as the validator's
`selectedScaling`. -/
def writeScaling (analysis : AppAnalysis) : String :=
  match selectedScaling analysis with
  | none => ""
  | some scaling =>
    let s := "  scaling:\n    minReplicas: " ++ toString scaling.minReplicas ++
      "\n    maxReplicas: " ++ toString scaling.maxReplicas ++ "\n"
    let s := if scaling.targetCPU > 0 then
        s ++ "    targetCPU: " ++ toString scaling.targetCPU ++ "\n" else s
    let s := if scaling.targetMemory > 0 then
        s ++ "    targetMemory: " ++ toString scaling.targetMemory ++ "\n" else s
    let behavior := if scaling.behavior = "" then "balanced" else scaling.behavior
    s ++ "    behavior: " ++ behavior ++ "\n"

/-- Model of `writeHealth` (lines 442-487): the health block of the persona
document, from `resolvePersonaHealth`. -/
def writeHealth (analysis : AppAnalysis) : String :=
  let (livenessPath, readinessPath, healthPort, grace) := resolvePersonaHealth analysis
  if livenessPath = "" ∧ readinessPath = "" then ""
  else
    let s := "  health:\n"
    let s := if livenessPath ≠ "" then s ++ "    livenessPath: " ++ livenessPath ++ "\n" else s
    let s := if readinessPath ≠ "" then s ++ "    readinessPath: " ++ readinessPath ++ "\n" else s
    let s := if healthPort > 0 then s ++ "    port: " ++ toString healthPort ++ "\n" else s
    let grace := if grace = "" then "30s" else grace
    s ++ "    startupGracePeriod: \"" ++ grace ++ "\"\n"

/-- Model of `writeDependencies` (lines 489-505). -/
def writeDependencies (analysis : AppAnalysis) : String :=
  match analysis.appConfig with
  | none => ""
  | some ac =>
    if ac.dependencies.isEmpty then ""
    else
      "  dependencies:\n" ++ ac.dependencies.foldl (fun acc dep =>
        acc ++ "    - name: " ++ dep.name ++ "\n" ++
        (if dep.depType ≠ "" then "      type: " ++ dep.depType ++ "\n" else "") ++
        "      required: " ++ (if dep.required then "true" else "false") ++ "\n" ++
        (if dep.healthCheck ≠ "" then
          "      healthCheck: \"" ++ dep.healthCheck ++ "\"\n" else "")) ""

/-- Model of `writeNetworking` (lines 507-544). -/
def writeNetworking (analysis : AppAnalysis) (cfg : Config) : String :=
  if analysis.ports.isEmpty then ""
  else
    let portsBlock := analysis.ports.foldl (fun acc p =>
      acc ++ "      - port: " ++ toString p.port ++ "\n" ++
      "        protocol: " ++ (if p.protocol = "" then "TCP" else p.protocol) ++ "\n" ++
      (if p.purpose ≠ "" then "        purpose: " ++ p.purpose ++ "\n" else "")) ""
    let ingressBlock :=
      match analysis.appConfig with
      | some ac =>
        match ac.ingress with
        | some ing =>
          if ing.enabled then
            "    ingress:\n      enabled: true\n" ++
            (if ing.host ≠ "" then "      host: " ++ ing.host ++ "\n"
             else if analysis.name ≠ "" then
               "      host: " ++ analysis.name ++ cfg.ingress.domainSuffix ++ "\n"
             else "") ++
            (if !ing.paths.isEmpty then
              "      paths:\n" ++ ing.paths.foldl (fun acc p =>
                acc ++ "        - " ++ p.path ++ "\n") ""
             else "") ++
            "      tlsEnabled: " ++ (if ing.tlsEnabled then "true" else "false") ++ "\n"
          else ""
        | none => ""
      | none => ""
    "  networking:\n    ports:\n" ++ portsBlock ++ ingressBlock

/-- Model of `writeOwnership` (lines 546-577). -/
def writeOwnership (analysis : AppAnalysis) : String :=
  let opsPair :=
    match analysis.appConfig with
    | some ac =>
      match ac.operations with
      | some ops => (ops.onCall, ops.runbook)
      | none => ("", "")
    | none => ("", "")
  let hasOwnership :=
    analysis.team ≠ "" ∨ analysis.owner ≠ "" ∨ analysis.repository ≠ "" ∨
    opsPair.1 ≠ "" ∨ opsPair.2 ≠ ""
  if hasOwnership then
    "  ownership:\n" ++
    (if analysis.team ≠ "" then "    team: " ++ analysis.team ++ "\n" else "") ++
    (if analysis.owner ≠ "" then "    owner: " ++ analysis.owner ++ "\n" else "") ++
    (if analysis.repository ≠ "" then
      "    repository: " ++ analysis.repository ++ "\n" else "") ++
    (if opsPair.1 ≠ "" then "    oncall: " ++ opsPair.1 ++ "\n" else "") ++
    (if opsPair.2 ≠ "" then "    runbook: " ++ opsPair.2 ++ "\n" else "")
  else ""

/-- Model of `writePolicies` (lines 579-622). -/
def writePolicies (analysis : AppAnalysis) (cfg : Config) : String :=
  let boolStr : Bool → String := fun b => if b then "true" else "false"
  let securityBlock :=
    "    security:\n      runAsNonRoot: " ++
    boolStr cfg.security.podSecurityContext.runAsNonRoot ++
    "\n      readOnlyRootFilesystem: " ++
    boolStr cfg.security.containerSecurityContext.readOnlyRootFilesystem ++
    "\n      allowPrivilegeEscalation: " ++
    boolStr cfg.security.containerSecurityContext.allowPrivilegeEscalation ++ "\n"
  let (strategy, maxSurge, maxUnavailable) :=
    match analysis.appConfig with
    | some ac =>
      match ac.deploymentPolicy with
      | some dp =>
        (if dp.strategy ≠ "" then dp.strategy else "RollingUpdate",
         if dp.maxSurge ≠ "" then dp.maxSurge else "25%",
         if dp.maxUnavailable ≠ "" then dp.maxUnavailable else "25%")
      | none => ("RollingUpdate", "25%", "25%")
    | none => ("RollingUpdate", "25%", "25%")
  let deploymentBlock :=
    "    deployment:\n      strategy: " ++ strategy ++
    "\n      maxSurge: \"" ++ maxSurge ++
    "\"\n      maxUnavailable: \"" ++ maxUnavailable ++ "\"\n"
  let (maintenanceWindow, autoRestart) :=
    match analysis.appConfig with
    | some ac =>
      match ac.operations with
      | some ops => (ops.maintenanceWindow, ops.autoRestart)
      | none => ("", false)
    | none => ("", false)
  let maintenanceBlock :=
    "    maintenance:\n" ++
    (if maintenanceWindow ≠ "" then
      "      window: \"" ++ maintenanceWindow ++ "\"\n" else "") ++
    "      autoRestart: " ++ boolStr autoRestart ++ "\n"
  "  policies:\n" ++ securityBlock ++ deploymentBlock ++ maintenanceBlock

/-- Model of `GeneratePersonaYAML` (lines 303-379): the ApplicationPersona CRD
document; the one generator that rejects an empty application name. -/
def GeneratePersonaYAML (analysis : AppAnalysis) (ns : String) (cfg : Config) :
    Except String String :=
  if analysis.name = "" then
    Except.error "application name is required for persona generation"
  else
    let ns := if ns = "" then "default" else ns
    let header :=
      "apiVersion: dorgu.io/v1\nkind: ApplicationPersona\nmetadata:\n  name: " ++
      analysis.name ++ "\n  namespace: " ++ ns ++
      "\n  labels:\n    app.kubernetes.io/managed-by: dorgu\n" ++
      (if analysis.team ≠ "" then "    dorgu.io/team: " ++ analysis.team ++ "\n" else "")
    let appType := if analysis.appType = "" then "api" else analysis.appType
    let tier :=
      match analysis.appConfig with
      | some ac => if ac.tier ≠ "" then ac.tier else "standard"
      | none => "standard"
    let technical :=
      "  technical:\n" ++
      (if analysis.language ≠ "" then
        "    language: " ++ analysis.language ++ "\n" else "") ++
      (if analysis.framework ≠ "" then
        "    framework: " ++ analysis.framework ++ "\n" else "") ++
      (if analysis.description ≠ "" then
        "    description: |\n      " ++
          (analysis.description.replace "\n" "\n      ") ++ "\n" else "")
    Except.ok (header ++
      "spec:\n  name: " ++ analysis.name ++ "\n  version: \"1\"\n  type: " ++
      appType ++ "\n  tier: " ++ tier ++ "\n" ++ technical ++
      writeResources analysis cfg ++
      writeScaling analysis ++
      writeHealth analysis ++
      writeDependencies analysis ++
      writeNetworking analysis cfg ++
      writeOwnership analysis ++
      writePolicies analysis cfg)

/-! ## Orchestrator (`Generate`, generator.go lines 27-129) -/

/-- Lines 43-65 of `Generate`: append the network-exposure document (only
if ports are exposed) and the endpoint document (only for HTTP services),
failing fast on a generator error. -/
def networkStep (analysis : AppAnalysis) (opts : Options)
    (files : List GeneratedFile) : Except String (List GeneratedFile) :=
  if !analysis.ports.isEmpty then
    match GenerateService analysis opts.ns opts.config with
    | Except.error e => Except.error e
    | Except.ok service =>
      let files := files ++
        [{ path := "service.yaml", content := DocContent.service service }]
      if hasHTTPPort analysis.ports then
        match GenerateIngress analysis opts.ns opts.config with
        | Except.error e => Except.error e
        | Except.ok ingress =>
          Except.ok (files ++
            [{ path := "ingress.yaml", content := DocContent.ingressDoc ingress }])
      else Except.ok files
  else Except.ok files

/-- Lines 67-77 of `Generate`: append the autoscaling document when the
analysis has a scaling config. -/
def hpaStep (analysis : AppAnalysis) (opts : Options)
    (files : List GeneratedFile) : Except String (List GeneratedFile) :=
  if analysis.scaling.isSome then
    match GenerateHPA analysis opts.ns opts.config with
    | Except.error e => Except.error e
    | Except.ok hpa =>
      Except.ok (files ++ [{ path := "hpa.yaml", content := DocContent.hpa hpa }])
  else Except.ok files

/-- Lines 79-89 of `Generate`: append the GitOps application document
unless skipped. -/
def argoStep (analysis : AppAnalysis) (opts : Options)
    (files : List GeneratedFile) : Except String (List GeneratedFile) :=
  if !opts.skipArgoCD then
    match GenerateArgoCD analysis opts.ns opts.config with
    | Except.error e => Except.error e
    | Except.ok argoApp =>
      Except.ok (files ++
        [{ path := "argocd/application.yaml", content := DocContent.argocdApp argoApp }])
  else Except.ok files

/-- Lines 91-101 of `Generate`: append the CI pipeline document unless
skipped. -/
def ciStep (analysis : AppAnalysis) (opts : Options)
    (files : List GeneratedFile) : Except String (List GeneratedFile) :=
  if !opts.skipCI then
    match GenerateGitHubActions analysis opts.config with
    | Except.error e => Except.error e
    | Except.ok workflow =>
      Except.ok (files ++
        [{ path := "../.github/workflows/deploy.yaml",
           content := DocContent.workflow workflow }])
  else Except.ok files

/-- Lines 103-126 of `Generate`: append the free-text persona (falling
back to `generateBasicPersona` when the LLM outcome is an error) and the
structured persona (skipped, with a warning, when its generation fails);
this step never fails. -/
def personaStep (analysis : AppAnalysis) (opts : Options)
    (llmPersona : Except String String) (files : List GeneratedFile) :
    Except String (List GeneratedFile) :=
  if !opts.skipPersona then
    let persona :=
      match llmPersona with
      | Except.ok p => p
      | Except.error _ => generateBasicPersona analysis
    let files := files ++ [{ path := "../PERSONA.md", content := DocContent.text persona }]
    match GeneratePersonaYAML analysis opts.ns opts.config with
    | Except.ok personaYAML =>
      Except.ok (files ++
        [{ path := "persona.yaml", content := DocContent.text personaYAML }])
    | Except.error _ => Except.ok files
  else Except.ok files

/-- Model of `Generate` (generator.go lines 27-129): assemble all documents for one
analyzed application, failing fast on the first generator error.
`llmPersona` is the outcome of `generatePersona` (generator.go lines
143-150) — an LLM client construction plus a network call, the one
effectful step of the orchestrator — passed as an input of the model;
each sequential block of the Go function is one step function above. -/
def Generate (analysis : AppAnalysis) (opts : Options)
    (llmPersona : Except String String) : Except String (List GeneratedFile) :=
  let resources := opts.config.getResourcesForProfile analysis.resourceProfile
  match GenerateDeployment analysis opts.ns resources opts.config with
  | Except.error e => Except.error e
  | Except.ok deployment =>
    match networkStep analysis opts
        [{ path := "deployment.yaml", content := DocContent.deployment deployment }] with
    | Except.error e => Except.error e
    | Except.ok files =>
      match hpaStep analysis opts files with
      | Except.error e => Except.error e
      | Except.ok files =>
        match argoStep analysis opts files with
        | Except.error e => Except.error e
        | Except.ok files =>
          match ciStep analysis opts files with
          | Except.error e => Except.error e
          | Except.ok files => personaStep analysis opts llmPersona files

/-! ## Concrete fixtures for counterexamples and witnesses -/

/-- An `AppAnalysis` with every field at the Go zero value. -/
def emptyAnalysis : AppAnalysis where
  name := ""
  appType := ""
  language := ""
  framework := ""
  description := ""
  ports := []
  healthCheck := none
  envVars := []
  dependencies := []
  resourceProfile := ""
  scaling := none
  appConfig := none
  team := ""
  owner := ""
  repository := ""
  environment := ""

/-- An `AppConfigContext` with every field at the Go zero value. -/
def emptyAppCfg : AppConfigContext where
  name := ""
  description := ""
  team := ""
  owner := ""
  repository := ""
  appType := ""
  instructions := ""
  environment := ""
  tier := ""
  resources := none
  scaling := none
  labels := []
  annotations := []
  ingress := none
  health := none
  dependencies := []
  operations := none
  deploymentPolicy := none

/-- Default options over the built-in default config. -/
def defaultOpts : Options where
  ns := "default"
  skipArgoCD := false
  skipCI := false
  skipPersona := false
  config := Config.defaultCfg

example : parseCPUMillis "2000m" = 2000 := by decide
example : parseCPUMillis "2" = 2000 := by decide
example : parseMemoryBytes "1Gi" = 1073741824 := by decide
example : (ValidateGenerated emptyAnalysis [] defaultOpts).passed = false := by decide

/-! ## Claim theorems -/

/-- C2: for every input, the `ValidationResult` returned by
`ValidateGenerated` has `passed = true` iff no issue in its issue list has
severity `error`. -/
theorem validateGenerated_passed_iff_no_error (analysis : AppAnalysis)
    (files : List GeneratedFile) (opts : Options) :
    (ValidateGenerated analysis files opts).passed = true ↔
      ∀ i ∈ (ValidateGenerated analysis files opts).issues,
        i.severity ≠ Severity.error := by
  simp [ValidateGenerated, or_imp, forall_and]

/-- Witness for C2 at a concrete input. -/
theorem validateGenerated_passed_iff_no_error_witness :
    (ValidateGenerated emptyAnalysis [] defaultOpts).passed = true ↔
      ∀ i ∈ (ValidateGenerated emptyAnalysis [] defaultOpts).issues,
        i.severity ≠ Severity.error :=
  validateGenerated_passed_iff_no_error emptyAnalysis [] defaultOpts

/-- C10: `ValidateGenerated` is independent of the generated-documents
argument — every rule reads only the analysis and the effective config. -/
theorem validateGenerated_independent_of_files (analysis : AppAnalysis)
    (opts : Options) (files1 files2 : List GeneratedFile) :
    ValidateGenerated analysis files1 opts = ValidateGenerated analysis files2 opts :=
  rfl

/-- Rule 1 always appends the info-severity mutable-tag note. -/
lemma validateImagePlaceholderIssues_ne_nil (analysis : AppAnalysis) (opts : Options) :
    validateImagePlaceholderIssues analysis opts ≠ [] := by
  simp [validateImagePlaceholderIssues]

/-- A summary built from a non-empty issue list never equals the
zero-issue summary line. -/
lemma validation_summary_ne (s : String) :
    "Validation: " ++ s ≠ "All validation checks passed" := by
  intro h
  have h2 := congrArg (fun t : String => t.data.head?) h
  simp only [String.data_append] at h2
  simp at h2

/-- C9: `ValidateGenerated` always returns at least one issue (rule 1
appends the info-severity mutable-tag note unconditionally), so the
zero-issue summary line is never produced. -/
theorem validateGenerated_issues_never_empty (analysis : AppAnalysis)
    (files : List GeneratedFile) (opts : Options) :
    (ValidateGenerated analysis files opts).issues ≠ [] ∧
    (ValidateGenerated analysis files opts).summary ≠ "All validation checks passed" := by
  have hne : (ValidateGenerated analysis files opts).issues ≠ [] := by
    intro hcontra
    have hlen := congrArg List.length hcontra
    have hpos : 0 < (validateImagePlaceholderIssues analysis opts).length :=
      List.length_pos.mpr (validateImagePlaceholderIssues_ne_nil analysis opts)
    simp only [ValidateGenerated, List.length_append, List.length_nil] at hlen
    omega
  refine ⟨hne, ?_⟩
  have key : ∀ (I : List ValidationIssue) (p : List String), I ≠ [] →
      (if I.isEmpty then "All validation checks passed"
       else "Validation: " ++ String.intercalate ", " p) ≠
        "All validation checks passed" := by
    intro I p hI
    rw [if_neg (by simpa using hI)]
    exact validation_summary_ne _
  exact key _ _ hne

/-- Witness for C9 at a concrete input. -/
theorem validateGenerated_issues_never_empty_witness :
    (ValidateGenerated emptyAnalysis [] defaultOpts).issues ≠ [] ∧
    (ValidateGenerated emptyAnalysis [] defaultOpts).summary ≠
      "All validation checks passed" :=
  validateGenerated_issues_never_empty emptyAnalysis [] defaultOpts

/-- C4: the quantity parsers give 2000 milli-units for CPU "2000m" and
"2", and 1073741824 bytes for memory "1Gi"; and on a merged resource spec
with CPU request "2000m" over CPU limit "1000m" (memory request not
exceeding the memory limit) the resource bounds check emits exactly one
error-severity issue, in category "resources". -/
theorem cpu_memory_parsers_and_resource_bounds (spec : ResourceSpec)
    (hreq : spec.requests.cpu = "2000m") (hlim : spec.limits.cpu = "1000m")
    (hmem : parseMemoryBytes spec.requests.memory ≤ parseMemoryBytes spec.limits.memory) :
    parseCPUMillis "2000m" = 2000 ∧ parseCPUMillis "2" = 2000 ∧
    parseMemoryBytes "1Gi" = 1073741824 ∧
    ∃ issue, resourceBoundsIssues spec = [issue] ∧
      issue.severity = Severity.error ∧ issue.category = "resources" := by
  refine ⟨by decide, by decide, by decide, ?_⟩
  refine ⟨{ severity := Severity.error
            category := "resources"
            file := "deployment.yaml"
            message := "Resource requests > limits: CPU request (2000m) > limit (1000m)"
            suggestion := "CPU request must be <= CPU limit" }, ?_, rfl, rfl⟩
  have hm : ¬(parseMemoryBytes spec.requests.memory > 0 ∧
      parseMemoryBytes spec.limits.memory > 0 ∧
      parseMemoryBytes spec.requests.memory > parseMemoryBytes spec.limits.memory) := by
    rintro ⟨-, -, hgt⟩
    omega
  simp only [resourceBoundsIssues, hreq, hlim]
  rw [if_pos (show parseCPUMillis "2000m" > 0 ∧ parseCPUMillis "1000m" > 0 ∧
        parseCPUMillis "2000m" > parseCPUMillis "1000m" by decide),
      if_neg hm]
  rfl

/-- A concrete merged spec for the C4 witness. -/
def c4Spec : ResourceSpec where
  requests := { cpu := "2000m", memory := "128Mi" }
  limits := { cpu := "1000m", memory := "512Mi" }

/-- Witness for C4 at a concrete input. -/
theorem cpu_memory_parsers_and_resource_bounds_witness :
    parseCPUMillis "2000m" = 2000 ∧ parseCPUMillis "2" = 2000 ∧
    parseMemoryBytes "1Gi" = 1073741824 ∧
    ∃ issue, resourceBoundsIssues c4Spec = [issue] ∧
      issue.severity = Severity.error ∧ issue.category = "resources" :=
  cpu_memory_parsers_and_resource_bounds c4Spec rfl rfl (by decide)

/-- An analysis whose scaling has a positive `minReplicas` and a zero
`maxReplicas`: the generator's `> 0` guard replaces the zero with the
default 10 while the validator compares the raw values. -/
def c3Analysis : AppAnalysis :=
  { emptyAnalysis with
    name := "orders"
    scaling := some { minReplicas := 1, maxReplicas := 0, targetCPU := 0,
                      targetMemory := 0, behavior := "" } }

/-- Counterexample to C3: on `c3Analysis` the validator emits an error
although the values the autoscaling document uses (min 1, max 10) satisfy
min ≤ max — the validator does not resolve scaling the way the autoscaling
document does. -/
theorem hpa_validator_generator_counterexample :
    validateHPAMinMaxIssues c3Analysis ≠ [] ∧
    (hpaResolvedScaling c3Analysis).1 = 1 ∧
    (hpaResolvedScaling c3Analysis).2.1 = 10 ∧
    ¬ ((hpaResolvedScaling c3Analysis).1 > (hpaResolvedScaling c3Analysis).2.1) ∧
    ((GenerateHPA c3Analysis "default" Config.defaultCfg).map
      (fun m => (m.spec.minReplicas, m.spec.maxReplicas))) = Except.ok (1, 10) := by
  refine ⟨by decide, by decide, by decide, by decide, by decide⟩

/-- The generator's scaling resolution, rephrased through the validator's
source selection: both pick the app-config scaling when present, else the
analysis scaling. -/
lemma hpaResolvedScaling_eq_selected (analysis : AppAnalysis) :
    hpaResolvedScaling analysis =
      match selectedScaling analysis with
      | some scaling =>
        (if scaling.minReplicas > 0 then scaling.minReplicas else 2,
         if scaling.maxReplicas > 0 then scaling.maxReplicas else 10,
         if scaling.targetCPU > 0 then scaling.targetCPU else 70,
         if scaling.targetMemory > 0 then scaling.targetMemory else 0)
      | none => (2, 10, 70, 0) := by
  unfold hpaResolvedScaling selectedScaling appCfgScaling
  rcases hA : analysis.appConfig with _ | ac
  · simp
  · rcases hS : ac.scaling with _ | s <;> simp [hS]

/-- C3 amended: the validator selects the same scaling source as the
autoscaling document (app-config override first, else analysis scaling)
but compares the raw min/max; when both are positive they coincide with
the document's resolved values and the error condition agrees. -/
theorem hpa_validator_raw_min_max (analysis : AppAnalysis) (s : ScalingConfig)
    (hs : selectedScaling analysis = some s)
    (hmin : 0 < s.minReplicas) (hmax : 0 < s.maxReplicas) :
    (hpaResolvedScaling analysis).1 = s.minReplicas ∧
    (hpaResolvedScaling analysis).2.1 = s.maxReplicas ∧
    (validateHPAMinMaxIssues analysis ≠ [] ↔ s.minReplicas > s.maxReplicas) := by
  refine ⟨?_, ?_, ?_⟩
  · rw [hpaResolvedScaling_eq_selected, hs]
    simp [hmin]
  · rw [hpaResolvedScaling_eq_selected, hs]
    simp [hmax]
  · unfold validateHPAMinMaxIssues
    rw [hs]
    by_cases hgt : s.minReplicas > s.maxReplicas <;> simp [hgt]

/-- A well-formed scaling config for the C3 witness. -/
def c3wScaling : ScalingConfig where
  minReplicas := 2
  maxReplicas := 5
  targetCPU := 70
  targetMemory := 0
  behavior := ""

/-- The analysis carrying `c3wScaling` for the C3 witness. -/
def c3wAnalysis : AppAnalysis := { emptyAnalysis with scaling := some c3wScaling }

/-- Witness for the amended C3 at a concrete input. -/
theorem hpa_validator_raw_min_max_witness :
    (hpaResolvedScaling c3wAnalysis).1 = c3wScaling.minReplicas ∧
    (hpaResolvedScaling c3wAnalysis).2.1 = c3wScaling.maxReplicas ∧
    (validateHPAMinMaxIssues c3wAnalysis ≠ [] ↔
      c3wScaling.minReplicas > c3wScaling.maxReplicas) :=
  hpa_validator_raw_min_max c3wAnalysis c3wScaling rfl (by decide) (by decide)

/-- An analysis with both `repository` and the app-config override
repository set, to differing values. -/
def c1Analysis : AppAnalysis :=
  { emptyAnalysis with
    name := "orders"
    repository := "https://example.com/analysis.git"
    appConfig := some { emptyAppCfg with repository := "https://example.com/override.git" } }

/-- Counterexample to C1: with both the analysis repository and the
app-config override repository set, the GitOps application document uses
the analysis value, not the override. -/
theorem argocd_repository_override_counterexample :
    (c1Analysis.appConfig.map (fun ac => ac.repository)) =
      some "https://example.com/override.git" ∧
    c1Analysis.repository = "https://example.com/analysis.git" ∧
    ((GenerateArgoCD c1Analysis "default" Config.defaultCfg).map
      (fun m => m.spec.source.repoURL)) = Except.ok "https://example.com/analysis.git" ∧
    "https://example.com/analysis.git" ≠ "https://example.com/override.git" := by
  refine ⟨rfl, rfl, by decide, by decide⟩

/-- C1 amended: the GitOps application document resolves the repository as
`analysis.repository` first, then the app-config override, then the
placeholder URL; the override is surfaced only when `analysis.repository`
is empty. -/
theorem argocd_repository_resolution (analysis : AppAnalysis) (ns : String)
    (cfg : Config) (ac : AppConfigContext) :
    ((GenerateArgoCD analysis ns cfg).map (fun m => m.spec.source.repoURL)) =
      Except.ok (argoRepoURL analysis) ∧
    (analysis.repository ≠ "" → argoRepoURL analysis = analysis.repository) ∧
    (analysis.appConfig = some ac → analysis.repository = "" → ac.repository ≠ "" →
      argoRepoURL analysis = ac.repository) := by
  refine ⟨rfl, ?_, ?_⟩
  · intro h
    simp [argoRepoURL, h]
  · intro hA h hr
    simp [argoRepoURL, h, hA, hr]

/-- An analysis where only the app-config override repository is set. -/
def c1wAnalysis : AppAnalysis :=
  { emptyAnalysis with
    name := "orders"
    appConfig := some { emptyAppCfg with repository := "https://example.com/override.git" } }

/-- Witness for the amended C1 at a concrete input. -/
theorem argocd_repository_resolution_witness :
    argoRepoURL c1wAnalysis = "https://example.com/override.git" := by
  have h := argocd_repository_resolution c1wAnalysis "default" Config.defaultCfg
    { emptyAppCfg with repository := "https://example.com/override.git" }
  exact h.2.2 rfl rfl (by decide)

/-- An app-config health block that sets only a liveness path. -/
def c7Health : HealthContext where
  livenessPath := "/live"
  livenessPort := 8080
  readinessPath := ""
  readinessPort := 0
  initialDelay := 0
  period := 0
  startupGracePeriod := ""

/-- An analysis whose app-config health provides only a liveness path. -/
def c7Analysis : AppAnalysis :=
  { emptyAnalysis with
    name := "orders"
    appConfig := some { emptyAppCfg with health := some c7Health } }

/-- Counterexample to C7: with an app-config health block that sets only a
liveness path, the workload document emits a liveness probe but no
readiness probe at all. -/
theorem workload_readiness_probe_counterexample :
    c7Health.livenessPath ≠ "" ∧ c7Health.readinessPath = "" ∧
    (resolveProbes c7Analysis).1.isSome = true ∧
    (resolveProbes c7Analysis).2 = none ∧
    ((GenerateDeployment c7Analysis "default"
        (Config.defaultCfg.getResourcesForProfile "") Config.defaultCfg).map
      (fun d => d.spec.template.spec.containers.map (fun c => c.readinessProbe)))
      = Except.ok [none] := by
  refine ⟨by decide, rfl, by decide, by decide, by decide⟩

/-- C7 amended: the liveness-to-readiness path defaulting happens in the
structured persona document, and in the workload document only on the
`analysis.healthCheck` fallback (where both probes are the same); when the
app-config health provides only a liveness path the workload document
omits the readiness probe. -/
theorem health_probe_defaulting (analysis : AppAnalysis) (ac : AppConfigContext)
    (h : HealthContext) (hc : HealthCheck) :
    (analysis.appConfig = some ac → ac.health = some h → h.livenessPath ≠ "" →
      h.readinessPath = "" → (resolveProbes analysis).2 = none) ∧
    (analysis.appConfig.bind (fun a => a.health) = none →
      analysis.healthCheck = some hc →
      (resolveProbes analysis).1 = (resolveProbes analysis).2 ∧
        (resolveProbes analysis).1.isSome = true) ∧
    (analysis.appConfig = some ac → ac.health = some h → h.livenessPath ≠ "" →
      h.readinessPath = "" →
      (resolvePersonaHealth analysis).1 = h.livenessPath ∧
        (resolvePersonaHealth analysis).2.1 = h.livenessPath) := by
  refine ⟨?_, ?_, ?_⟩
  · intro hA hh hl hr
    simp [resolveProbes, hA, hh, hl, hr]
  · intro hbind hhc
    rcases hA : analysis.appConfig with _ | ac'
    · simp [resolveProbes, hA, hhc]
    · have hh' : ac'.health = none := by
        rw [hA] at hbind
        simpa using hbind
      simp [resolveProbes, hA, hh', hhc]
  · intro hA hh hl hr
    simp [resolvePersonaHealth, hA, hh, hl, hr]

/-- An analysis health check for the C7 witness fallback case. -/
def c7HC : HealthCheck where
  path := "/health"
  port := 8080
  initialDelay := 0
  period := 0
  timeout := 0
  successThreshold := 0
  failureThreshold := 0

/-- An analysis with only the analysis-level health check. -/
def c7wAnalysis : AppAnalysis := { emptyAnalysis with healthCheck := some c7HC }

/-- Witness for the amended C7 at concrete inputs. -/
theorem health_probe_defaulting_witness :
    (resolveProbes c7Analysis).2 = none ∧
    ((resolveProbes c7wAnalysis).1 = (resolveProbes c7wAnalysis).2 ∧
      (resolveProbes c7wAnalysis).1.isSome = true) ∧
    ((resolvePersonaHealth c7Analysis).1 = c7Health.livenessPath ∧
      (resolvePersonaHealth c7Analysis).2.1 = c7Health.livenessPath) := by
  refine ⟨?_, ?_, ?_⟩
  · exact (health_probe_defaulting c7Analysis
      { emptyAppCfg with health := some c7Health } c7Health c7HC).1
      rfl rfl (by decide) rfl
  · exact (health_probe_defaulting c7wAnalysis emptyAppCfg c7Health c7HC).2.1 rfl rfl
  · exact (health_probe_defaulting c7Analysis
      { emptyAppCfg with health := some c7Health } c7Health c7HC).2.2
      rfl rfl (by decide) rfl

/-- The ok/error discriminator of a Go `(value, error)` return. -/
def isOkE {ε α : Type} : Except ε α → Bool
  | Except.ok _ => true
  | Except.error _ => false

/-- Counterexample to C8: on an empty-name analysis every assembly
function except the structured persona generator succeeds. -/
theorem empty_name_generators_counterexample :
    emptyAnalysis.name = "" ∧
    isOkE (GenerateDeployment emptyAnalysis "default"
      (Config.defaultCfg.getResourcesForProfile "") Config.defaultCfg) = true ∧
    isOkE (GenerateService emptyAnalysis "default" Config.defaultCfg) = true ∧
    isOkE (GenerateIngress emptyAnalysis "default" Config.defaultCfg) = true ∧
    isOkE (GenerateHPA emptyAnalysis "default" Config.defaultCfg) = true ∧
    isOkE (GenerateArgoCD emptyAnalysis "default" Config.defaultCfg) = true ∧
    isOkE (GenerateGitHubActions emptyAnalysis Config.defaultCfg) = true ∧
    GeneratePersonaYAML emptyAnalysis "default" Config.defaultCfg =
      Except.error "application name is required for persona generation" := by
  refine ⟨rfl, rfl, rfl, rfl, rfl, rfl, rfl, rfl⟩

/-- C8 amended: only the structured persona generator rejects an empty
name; the other assembly functions never return an error (their only error
path is serialization, which cannot fail on these values). -/
theorem generator_error_behavior (analysis : AppAnalysis) (ns : String)
    (res : ResourceSpec) (cfg : Config) :
    isOkE (GenerateDeployment analysis ns res cfg) = true ∧
    isOkE (GenerateService analysis ns cfg) = true ∧
    isOkE (GenerateIngress analysis ns cfg) = true ∧
    isOkE (GenerateHPA analysis ns cfg) = true ∧
    isOkE (GenerateArgoCD analysis ns cfg) = true ∧
    isOkE (GenerateGitHubActions analysis cfg) = true ∧
    (isOkE (GeneratePersonaYAML analysis ns cfg) = true ↔ analysis.name ≠ "") := by
  refine ⟨rfl, rfl, rfl, rfl, rfl, rfl, ?_⟩
  by_cases hn : analysis.name = "" <;> simp [GeneratePersonaYAML, isOkE, hn]

/-- Witness for the amended C8 at a concrete input. -/
theorem generator_error_behavior_witness :
    isOkE (GenerateDeployment emptyAnalysis "default"
      (Config.defaultCfg.getResourcesForProfile "") Config.defaultCfg) = true ∧
    isOkE (GenerateService emptyAnalysis "default" Config.defaultCfg) = true ∧
    isOkE (GenerateIngress emptyAnalysis "default" Config.defaultCfg) = true ∧
    isOkE (GenerateHPA emptyAnalysis "default" Config.defaultCfg) = true ∧
    isOkE (GenerateArgoCD emptyAnalysis "default" Config.defaultCfg) = true ∧
    isOkE (GenerateGitHubActions emptyAnalysis Config.defaultCfg) = true ∧
    (isOkE (GeneratePersonaYAML emptyAnalysis "default" Config.defaultCfg) = true ↔
      emptyAnalysis.name ≠ "") :=
  generator_error_behavior emptyAnalysis "default"
    (Config.defaultCfg.getResourcesForProfile "") Config.defaultCfg

/-- With no exposed ports the network step adds nothing. -/
lemma networkStep_no_ports (analysis : AppAnalysis) (opts : Options)
    (files : List GeneratedFile) (h : analysis.ports = []) :
    networkStep analysis opts files = Except.ok files := by
  simp [networkStep, h]

/-- With no scaling config the autoscaling step adds nothing. -/
lemma hpaStep_no_scaling (analysis : AppAnalysis) (opts : Options)
    (files : List GeneratedFile) (h : analysis.scaling = none) :
    hpaStep analysis opts files = Except.ok files := by
  simp [hpaStep, h]

/-- Files added by the network step are the network-exposure and endpoint
documents, and only when ports are exposed. -/
lemma networkStep_paths (analysis : AppAnalysis) (opts : Options)
    (files files' : List GeneratedFile)
    (h : networkStep analysis opts files = Except.ok files') :
    ∀ f ∈ files', f ∈ files ∨
      ((f.path = "service.yaml" ∨ f.path = "ingress.yaml") ∧ analysis.ports ≠ []) := by
  intro f hf
  unfold networkStep at h
  split at h
  next hcond =>
    have hports : analysis.ports ≠ [] := by
      intro hnil
      rw [hnil] at hcond
      simp at hcond
    split at h
    · exact absurd h (by simp)
    · split at h
      · split at h
        · exact absurd h (by simp)
        · cases h
          simp at hf
          rcases hf with hf | hf | hf
          · exact Or.inl hf
          · exact Or.inr ⟨Or.inl (by rw [hf]), hports⟩
          · exact Or.inr ⟨Or.inr (by rw [hf]), hports⟩
      · cases h
        simp at hf
        rcases hf with hf | hf
        · exact Or.inl hf
        · exact Or.inr ⟨Or.inl (by rw [hf]), hports⟩
  next =>
    cases h
    exact Or.inl hf

/-- Files added by the autoscaling step are the autoscaling document, and
only when the analysis has a scaling config. -/
lemma hpaStep_paths (analysis : AppAnalysis) (opts : Options)
    (files files' : List GeneratedFile)
    (h : hpaStep analysis opts files = Except.ok files') :
    ∀ f ∈ files', f ∈ files ∨ (f.path = "hpa.yaml" ∧ analysis.scaling ≠ none) := by
  intro f hf
  unfold hpaStep at h
  split at h
  next hcond =>
    have hscal : analysis.scaling ≠ none := by
      intro hnone
      rw [hnone] at hcond
      simp at hcond
    split at h
    · exact absurd h (by simp)
    · cases h
      simp at hf
      rcases hf with hf | hf
      · exact Or.inl hf
      · exact Or.inr ⟨by rw [hf], hscal⟩
  next =>
    cases h
    exact Or.inl hf

/-- Files added by the GitOps step are the GitOps application document
only. -/
lemma argoStep_paths (analysis : AppAnalysis) (opts : Options)
    (files files' : List GeneratedFile)
    (h : argoStep analysis opts files = Except.ok files') :
    ∀ f ∈ files', f ∈ files ∨ f.path = "argocd/application.yaml" := by
  intro f hf
  unfold argoStep at h
  split at h
  · split at h
    · exact absurd h (by simp)
    · cases h
      simp at hf
      rcases hf with hf | hf
      · exact Or.inl hf
      · exact Or.inr (by rw [hf])
  · cases h
    exact Or.inl hf

/-- Files added by the CI step are the CI pipeline document only. -/
lemma ciStep_paths (analysis : AppAnalysis) (opts : Options)
    (files files' : List GeneratedFile)
    (h : ciStep analysis opts files = Except.ok files') :
    ∀ f ∈ files', f ∈ files ∨ f.path = "../.github/workflows/deploy.yaml" := by
  intro f hf
  unfold ciStep at h
  split at h
  · split at h
    · exact absurd h (by simp)
    · cases h
      simp at hf
      rcases hf with hf | hf
      · exact Or.inl hf
      · exact Or.inr (by rw [hf])
  · cases h
    exact Or.inl hf

/-- Files added by the persona step are the two persona documents only. -/
lemma personaStep_paths (analysis : AppAnalysis) (opts : Options)
    (llmPersona : Except String String) (files files' : List GeneratedFile)
    (h : personaStep analysis opts llmPersona files = Except.ok files') :
    ∀ f ∈ files', f ∈ files ∨ f.path = "../PERSONA.md" ∨ f.path = "persona.yaml" := by
  intro f hf
  unfold personaStep at h
  split at h
  · split at h
    all_goals
      split at h
      · cases h
        simp at hf
        rcases hf with hf | hf | hf
        · exact Or.inl hf
        · exact Or.inr (Or.inl (by rw [hf]))
        · exact Or.inr (Or.inr (by rw [hf]))
      · cases h
        simp at hf
        rcases hf with hf | hf
        · exact Or.inl hf
        · exact Or.inr (Or.inl (by rw [hf]))
  · cases h
    exact Or.inl hf

/-- Every file of a successful `Generate` run is the workload document or
came from one of the five steps. -/
lemma generate_paths (analysis : AppAnalysis) (opts : Options)
    (llmPersona : Except String String) (files : List GeneratedFile)
    (hgen : Generate analysis opts llmPersona = Except.ok files) :
    ∀ f ∈ files,
      f.path = "deployment.yaml" ∨
      (f.path = "service.yaml" ∧ analysis.ports ≠ []) ∨
      (f.path = "ingress.yaml" ∧ analysis.ports ≠ []) ∨
      (f.path = "hpa.yaml" ∧ analysis.scaling ≠ none) ∨
      f.path = "argocd/application.yaml" ∨
      f.path = "../.github/workflows/deploy.yaml" ∨
      f.path = "../PERSONA.md" ∨ f.path = "persona.yaml" := by
  intro f hf
  unfold Generate at hgen
  simp only [] at hgen
  split at hgen
  · exact absurd hgen (by simp)
  split at hgen
  · exact absurd hgen (by simp)
  next files1 heq1 =>
  split at hgen
  · exact absurd hgen (by simp)
  next files2 heq2 =>
  split at hgen
  · exact absurd hgen (by simp)
  next files3 heq3 =>
  split at hgen
  · exact absurd hgen (by simp)
  next files4 heq4 =>
  rcases personaStep_paths analysis opts llmPersona files4 files hgen f hf with h5 | h5 | h5
  rotate_left
  · simp [h5]
  · simp [h5]
  rcases ciStep_paths analysis opts files3 files4 heq4 f h5 with h4 | h4
  rotate_left
  · simp [h4]
  rcases argoStep_paths analysis opts files2 files3 heq3 f h4 with h3 | h3
  rotate_left
  · simp [h3]
  rcases hpaStep_paths analysis opts files1 files2 heq2 f h3 with h2 | h2
  rotate_left
  · exact Or.inr (Or.inr (Or.inr (Or.inl h2)))
  rcases networkStep_paths analysis opts _ files1 heq1 f h2 with h1 | h1
  · simp at h1
    simp [h1]
  · rcases h1 with ⟨h1 | h1, hports⟩
    · exact Or.inr (Or.inl ⟨h1, hports⟩)
    · exact Or.inr (Or.inr (Or.inl ⟨h1, hports⟩))

/-- C5: with an empty ports list `Generate` emits neither the
network-exposure nor the endpoint document, and with no scaling config it
emits no autoscaling document. -/
theorem generate_conditional_emission (analysis : AppAnalysis) (opts : Options)
    (llmPersona : Except String String) (files : List GeneratedFile)
    (hgen : Generate analysis opts llmPersona = Except.ok files) :
    (analysis.ports = [] →
      ∀ f ∈ files, f.path ≠ "service.yaml" ∧ f.path ≠ "ingress.yaml") ∧
    (analysis.scaling = none → ∀ f ∈ files, f.path ≠ "hpa.yaml") := by
  constructor
  · intro hports f hf
    rcases generate_paths analysis opts llmPersona files hgen f hf with
      h | ⟨h, hne⟩ | ⟨h, hne⟩ | ⟨h, _⟩ | h | h | h | h
    · simp [h]
    · exact absurd hports hne
    · exact absurd hports hne
    · simp [h]
    · simp [h]
    · simp [h]
    · simp [h]
    · simp [h]
  · intro hscal f hf
    rcases generate_paths analysis opts llmPersona files hgen f hf with
      h | ⟨h, _⟩ | ⟨h, _⟩ | ⟨h, hne⟩ | h | h | h | h
    · simp [h]
    · simp [h]
    · simp [h]
    · exact absurd hscal hne
    · simp [h]
    · simp [h]
    · simp [h]
    · simp [h]

/-- A port-free, scaling-free analysis for the C5 witness. -/
def c5Analysis : AppAnalysis := { emptyAnalysis with name := "app" }

/-- Options for the C5 witness (persona skipped to keep the run small). -/
def c5Opts : Options := { defaultOpts with skipPersona := true }

/-- The concrete output of `Generate` on the C5 witness input. -/
def c5Files : List GeneratedFile :=
  match Generate c5Analysis c5Opts (Except.error "llm unavailable") with
  | Except.ok fs => fs
  | Except.error _ => []

/-- Witness for C5 at a concrete input. -/
theorem generate_conditional_emission_witness :
    Generate c5Analysis c5Opts (Except.error "llm unavailable") = Except.ok c5Files ∧
    (∀ f ∈ c5Files, f.path ≠ "service.yaml" ∧ f.path ≠ "ingress.yaml") ∧
    (∀ f ∈ c5Files, f.path ≠ "hpa.yaml") :=
  ⟨rfl,
   (generate_conditional_emission c5Analysis c5Opts
     (Except.error "llm unavailable") c5Files rfl).1 rfl,
   (generate_conditional_emission c5Analysis c5Opts
     (Except.error "llm unavailable") c5Files rfl).2 rfl⟩

/-- An analysis for the C6 counterexample. -/
def c6Analysis : AppAnalysis := { emptyAnalysis with name := "orders" }

/-- Options for the C6 counterexample: persona generation enabled. -/
def c6Opts : Options := { defaultOpts with skipArgoCD := true, skipCI := true }

/-- Counterexample to C6: with identical (analysis, options), two runs of
`Generate` whose LLM call returned different text produce different
document lists — the orchestrator performs I/O (the LLM call) that can
change its result between runs. -/
theorem generate_llm_nondeterminism_counterexample :
    Generate c6Analysis c6Opts (Except.ok "persona text A") ≠
      Generate c6Analysis c6Opts (Except.ok "persona text B") := by
  decide

/-- With the persona documents skipped, the persona step is the
identity. -/
lemma personaStep_skip (analysis : AppAnalysis) (opts : Options)
    (llmPersona : Except String String) (files : List GeneratedFile)
    (h : opts.skipPersona = true) :
    personaStep analysis opts llmPersona files = Except.ok files := by
  simp [personaStep, h]

/-- C6 amended: the document list is a pure function of (analysis,
options, LLM outcome); the only LLM-dependent document is the free-text
persona, so when the persona documents are skipped two runs agree
byte-for-byte whatever the LLM calls returned. -/
theorem generate_deterministic_when_persona_skipped (analysis : AppAnalysis)
    (opts : Options) (llm1 llm2 : Except String String)
    (h : opts.skipPersona = true) :
    Generate analysis opts llm1 = Generate analysis opts llm2 := by
  unfold Generate
  simp only [personaStep_skip _ _ llm1 _ h, personaStep_skip _ _ llm2 _ h]

/-- Witness for the amended C6 at a concrete input. -/
theorem generate_deterministic_when_persona_skipped_witness :
    Generate c6Analysis { c6Opts with skipPersona := true } (Except.ok "A") =
      Generate c6Analysis { c6Opts with skipPersona := true } (Except.error "B") :=
  generate_deterministic_when_persona_skipped c6Analysis
    { c6Opts with skipPersona := true } (Except.ok "A") (Except.error "B") rfl

/-- Witness for C10 at a concrete input. -/
theorem validateGenerated_independent_of_files_witness :
    ValidateGenerated emptyAnalysis [] defaultOpts =
      ValidateGenerated emptyAnalysis
        [{ path := "deployment.yaml", content := DocContent.text "x" }] defaultOpts :=
  validateGenerated_independent_of_files emptyAnalysis defaultOpts []
    [{ path := "deployment.yaml", content := DocContent.text "x" }]

end Dorgu
